import Mathlib

/-!
Panel drivers `panel-boe-ts110f5mlg0.c` and `panel-csot-ppa957db2d.c`.

A shallow embedding of the two MIPI-DSI panel drivers.  Driver functions are
state-passing functions over a `World` that records every call the driver makes
on its collaborators (DSI transport, regulator framework, reset GPIO, sleeps).
The answers of the collaborators that the driver cannot determine itself come
from an `Env`.  Logging calls (`dev_dbg`, `dev_info`, `dev_warn`, `dev_err`)
have no effect on the driver state and are left out.
-/

namespace PanelDrv

/-! ## Constants of `samsung/panel/panel-samsung-drv.h` -/

/-- Constants that the drivers take from `samsung/panel/panel-samsung-drv.h`.
The header is not part of the sources, so its values are parameters. -/
structure DrvHeader where
  PANEL_ID_MAX : Nat
  PANEL_REV_PROTO1 : Nat
  PANEL_REV_PROTO2 : Nat
  PANEL_REV_EVT1 : Nat
  PANEL_REV_EVT1_1 : Nat
  PANEL_REV_EVT2 : Nat
  PANEL_REV_DVT1 : Nat
  PANEL_REV_PVT : Nat
  PANEL_REV_LATEST : Nat
  PANEL_STATE_BLANK : Nat
  deriving DecidableEq, Repr

/-- The struct `exynos_panel`: the fields the two drivers read or write. -/
structure exynos_panel where
  panel_rev : Nat
  panel_id : List Nat
  panel_state : Nat
  dimming_on : Bool
  enabled : Bool
  deriving DecidableEq, Repr

/-! ## Revision detection -/

/-- The table `static const u32 ts110f5mlg0_panel_rev[]`. -/
def ts110f5mlg0_panel_rev (H : DrvHeader) : List Nat :=
  [H.PANEL_REV_PROTO1, H.PANEL_REV_PROTO2, H.PANEL_REV_EVT1, H.PANEL_REV_EVT1_1,
   H.PANEL_REV_EVT2, H.PANEL_REV_DVT1, H.PANEL_REV_PVT]

/-- The table `static const u32 ppa957db2d_panel_rev[]`. -/
def ppa957db2d_panel_rev (H : DrvHeader) : List Nat :=
  [H.PANEL_REV_PROTO1, H.PANEL_REV_PROTO2, H.PANEL_REV_EVT1, H.PANEL_REV_EVT1_1,
   H.PANEL_REV_EVT2, H.PANEL_REV_DVT1, H.PANEL_REV_PVT]

/-- The line `u8 build_code = (id & 0xFF00) >> 8;` of both `get_panel_rev`. -/
def build_code (id : Nat) : Nat := ((id &&& 0xFF00) >>> 8) % 256

/-- The line `u8 rev = build_code >> 4;` of both `get_panel_rev`. -/
def rev_of (id : Nat) : Nat := (build_code id >>> 4) % 256

/-- The function `ts110f5mlg0_get_panel_rev`.  The table read is `none` when the index is
outside the table, so a result `some _` means no out-of-range access. -/
def ts110f5mlg0_get_panel_rev (H : DrvHeader) (ctx : exynos_panel) (id : Nat) :
    Option exynos_panel :=
  let rev := rev_of id
  if rev ≥ (ts110f5mlg0_panel_rev H).length then
    some { ctx with panel_rev := H.PANEL_REV_LATEST }
  else
    ((ts110f5mlg0_panel_rev H)[rev]?).map fun v => { ctx with panel_rev := v }

/-- The function `ppa957db2d_get_panel_rev`, with the same convention for the table read. -/
def ppa957db2d_get_panel_rev (H : DrvHeader) (ctx : exynos_panel) (id : Nat) :
    Option exynos_panel :=
  let rev := rev_of id
  if rev ≥ (ppa957db2d_panel_rev H).length then
    some { ctx with panel_rev := H.PANEL_REV_LATEST }
  else
    ((ppa957db2d_panel_rev H)[rev]?).map fun v => { ctx with panel_rev := v }

/-- The revision selected by index `n`: the `n`-th of the seven table entries,
and `PANEL_REV_LATEST` from index 7 on. -/
def rev_at (H : DrvHeader) (n : Nat) : Nat :=
  match n with
  | 0 => H.PANEL_REV_PROTO1
  | 1 => H.PANEL_REV_PROTO2
  | 2 => H.PANEL_REV_EVT1
  | 3 => H.PANEL_REV_EVT1_1
  | 4 => H.PANEL_REV_EVT2
  | 5 => H.PANEL_REV_DVT1
  | 6 => H.PANEL_REV_PVT
  | _ => H.PANEL_REV_LATEST

/-! ## Collaborators: DSI transport, regulators, reset GPIO, sleeps -/

/-- The regulator handles of `struct exynos_panel` (`vddi`) and of
`struct ppa957db2d_panel` (`i2c_pwr`, `avdd`, `avee`). -/
inductive Rail where
  | vddi
  | i2c_pwr
  | avdd
  | avee
  deriving DecidableEq, Repr

/-- One call of a driver on a collaborator, in the order the driver makes them. -/
inductive Event where
  | dcs_write (payload : List Nat)
  | dcs_read (cmd : Nat) (len : Nat)
  | regulator_enable (r : Rail)
  | regulator_disable (r : Rail)
  | regulator_is_enabled (r : Rail)
  | regulator_set_voltage (r : Rail) (min_uV : Nat) (max_uV : Nat)
  | gpiod_set_value (value : Nat)
  | usleep_range (min : Nat) (max : Nat)
  deriving DecidableEq, Repr

/-- What one `mipi_dsi_dcs_read` call gives back: the return value (a byte count
or a negative error) and the bytes the transport stored in the destination. -/
structure ReadReply where
  ret : Int
  data : List Nat
  deriving DecidableEq, Repr

/-- The state of one regulator as its consumers see it: the use count and what
`regulator_is_enabled` reports.  A line left on by the bootloader has
`use_count = 0` and `enabled = true`. -/
structure Regulator where
  use_count : Nat
  enabled : Bool
  deriving DecidableEq, Repr

/-- The four regulators of the panel. -/
structure Regulators where
  vddi : Regulator
  i2c_pwr : Regulator
  avdd : Regulator
  avee : Regulator
  deriving DecidableEq, Repr

def Regulators.get (rs : Regulators) : Rail → Regulator
  | .vddi => rs.vddi
  | .i2c_pwr => rs.i2c_pwr
  | .avdd => rs.avdd
  | .avee => rs.avee

def Regulators.set (rs : Regulators) (r : Rail) (v : Regulator) : Regulators :=
  match r with
  | .vddi => { rs with vddi := v }
  | .i2c_pwr => { rs with i2c_pwr := v }
  | .avdd => { rs with avdd := v }
  | .avee => { rs with avee := v }

/-- Everything outside the driver: the calls made so far, the number of DSI
reads made so far, the regulators and the level of the reset GPIO. -/
structure World where
  log : List Event
  reads : Nat
  regs : Regulators
  reset_gpio : Nat
  deriving DecidableEq, Repr

/-- The answers of the collaborators in one run.  `dcs_read k cmd len` is the
reply to the read number `k` (counted from 0), so a reply may depend on the
whole history of the run.  `enable`, `disable` and `set_voltage` are the return
values of the regulator calls (0 is success). -/
structure Env where
  dcs_read : Nat → Nat → Nat → ReadReply
  enable : Rail → Int
  disable : Rail → Int
  set_voltage : Rail → Nat → Nat → Int

/-- The record of a call. -/
def World.emit (w : World) (e : Event) : World :=
  { w with log := w.log ++ [e] }

/-- The statement `EXYNOS_DCS_WRITE_SEQ(ctx, seq...)`, a macro of the header: one register
write of the bytes `seq`.  The drivers use it as a statement, so the result
of the write is not looked at. -/
def EXYNOS_DCS_WRITE_SEQ (seq : List Nat) (w : World) : World :=
  w.emit (.dcs_write seq)

/-- Bytes `src` stored in the buffer `buf` from offset `off` on. -/
def store (buf : List Nat) (off : Nat) (src : List Nat) : List Nat :=
  match src with
  | [] => buf
  | b :: bs => store (buf.set off b) (off + 1) bs

/-- The call `mipi_dsi_dcs_read(dsi, cmd, data, len)` with `data` at offset `off` of the
buffer `buf`: the transport stores at most `len` bytes there and returns a
byte count or an error. -/
def mipi_dsi_dcs_read (E : Env) (cmd : Nat) (buf : List Nat) (off : Nat) (len : Nat)
    (w : World) : Int × List Nat × World :=
  let reply := E.dcs_read w.reads cmd len
  (reply.ret, store buf off (reply.data.take len),
   { (w.emit (.dcs_read cmd len)) with reads := w.reads + 1 })

/-- The kernel function `strlcpy(dest, src, size)` on a buffer: `src` is a string
without its NUL. -/
def strlcpy (dest : List Nat) (src : List Nat) (size : Nat) : List Nat :=
  if size = 0 then dest
  else
    let len := if src.length ≥ size then size - 1 else src.length
    (store dest 0 (src.take len)).set len 0

/-- The string held in a `char` buffer: the bytes before the first NUL. -/
def cstr (buf : List Nat) : List Nat := buf.takeWhile fun b => b != 0

/-- The string literal `"0"`. -/
def str_0 : List Nat := [48]

def EIO : Int := 5

/-! ## Identity read -/

def TS110F5MLG0_PANEL_ID_REG : Nat := 0x00
def TS110F5MLG0_PANEL_ID_LEN : Nat := 37
def PPA957DB2D_PANEL_ID_REG : Nat := 0x00
def PPA957DB2D_PANEL_ID_LEN : Nat := 37

/-- The conversion of a `ssize_t` to `int`: the low 32 bits, read as a signed
number.  It is what the assignment of the result of `mipi_dsi_dcs_read` to
`int read_bytes` does. -/
def int_of_ssize_t (x : Int) : Int := (x + 2147483648) % 4294967296 - 2147483648

/-- The loop `for (i = 0; i < TS110F5MLG0_PANEL_ID_LEN; ++i)` of
`ts110f5mlg0_read_id`, entered at `i` with `todo = TS110F5MLG0_PANEL_ID_LEN - i`
rounds left; the result carries `read_bytes`. -/
def ts110f5mlg0_read_id_loop (E : Env) :
    (todo : Nat) → (i : Nat) → (read_bytes : Int) → exynos_panel → World →
      Int × exynos_panel × World
  | 0, _, read_bytes, ctx, w => (read_bytes, ctx, w)
  | todo + 1, i, _, ctx, w =>
    match mipi_dsi_dcs_read E (TS110F5MLG0_PANEL_ID_REG + i) ctx.panel_id i 1 w with
    | (ret, buf, w1) =>
      let read_bytes := int_of_ssize_t ret
      if read_bytes ≠ 1 then (read_bytes, { ctx with panel_id := buf }, w1)
      else ts110f5mlg0_read_id_loop E todo (i + 1) read_bytes { ctx with panel_id := buf } w1

/-- The function `ts110f5mlg0_read_id`. -/
def ts110f5mlg0_read_id (H : DrvHeader) (E : Env) (ctx : exynos_panel) (w : World) :
    Int × exynos_panel × World :=
  if ctx.panel_rev < H.PANEL_REV_EVT2 then
    (0, { ctx with panel_id := strlcpy ctx.panel_id str_0 H.PANEL_ID_MAX }, w)
  else
    let w := EXYNOS_DCS_WRITE_SEQ [0xFF, 0x22] w
    let w := EXYNOS_DCS_WRITE_SEQ [0xFB, 0x01] w
    match ts110f5mlg0_read_id_loop E TS110F5MLG0_PANEL_ID_LEN 0 0 ctx w with
    | (read_bytes, ctx, w) =>
      let w := EXYNOS_DCS_WRITE_SEQ [0xFF, 0x10] w
      let w := EXYNOS_DCS_WRITE_SEQ [0xFB, 0x01] w
      if read_bytes ≠ 1 then
        (- EIO, { ctx with panel_id := strlcpy ctx.panel_id str_0 H.PANEL_ID_MAX }, w)
      else
        (0, { ctx with panel_id := ctx.panel_id.set TS110F5MLG0_PANEL_ID_LEN 0 }, w)

/-- The loop `for (i = 0; i < PPA957DB2D_PANEL_ID_LEN; ++i)` of
`ppa957db2d_read_id`, entered at `i` with `todo = PPA957DB2D_PANEL_ID_LEN - i`
rounds left; the result carries `read_bytes`. -/
def ppa957db2d_read_id_loop (E : Env) :
    (todo : Nat) → (i : Nat) → (read_bytes : Int) → exynos_panel → World →
      Int × exynos_panel × World
  | 0, _, read_bytes, ctx, w => (read_bytes, ctx, w)
  | todo + 1, i, _, ctx, w =>
    match mipi_dsi_dcs_read E (PPA957DB2D_PANEL_ID_REG + i) ctx.panel_id i 1 w with
    | (ret, buf, w1) =>
      let read_bytes := int_of_ssize_t ret
      if read_bytes ≠ 1 then (read_bytes, { ctx with panel_id := buf }, w1)
      else ppa957db2d_read_id_loop E todo (i + 1) read_bytes { ctx with panel_id := buf } w1

/-- The function `ppa957db2d_read_id`. -/
def ppa957db2d_read_id (H : DrvHeader) (E : Env) (ctx : exynos_panel) (w : World) :
    Int × exynos_panel × World :=
  if ctx.panel_rev < H.PANEL_REV_EVT2 then
    (0, { ctx with panel_id := strlcpy ctx.panel_id str_0 H.PANEL_ID_MAX }, w)
  else
    let w := EXYNOS_DCS_WRITE_SEQ [0xFF, 0x22] w
    let w := EXYNOS_DCS_WRITE_SEQ [0xFB, 0x01] w
    match ppa957db2d_read_id_loop E PPA957DB2D_PANEL_ID_LEN 0 0 ctx w with
    | (read_bytes, ctx, w) =>
      let w := EXYNOS_DCS_WRITE_SEQ [0xFF, 0x10] w
      let w := EXYNOS_DCS_WRITE_SEQ [0xFB, 0x01] w
      if read_bytes ≠ 1 then
        (- EIO, { ctx with panel_id := strlcpy ctx.panel_id str_0 H.PANEL_ID_MAX }, w)
      else
        (0, { ctx with panel_id := ctx.panel_id.set PPA957DB2D_PANEL_ID_LEN 0 }, w)

/-! ## Power sequencing of the CSOT panel -/

/-- The struct `ppa957db2d_panel`: the base panel and the two target voltages (the
regulator handles are the constructors of `Rail`). -/
structure ppa957db2d_panel where
  base : exynos_panel
  avdd_uV : Nat
  avee_uV : Nat
  deriving DecidableEq, Repr

/-- A successful `regulator_enable` on a regulator: one more user, line on. -/
def Regulator.acquire (r : Regulator) : Regulator :=
  { use_count := r.use_count + 1, enabled := true }

/-- A successful `regulator_disable` on a regulator: one user less, and the
line is on only while users remain. -/
def Regulator.release (r : Regulator) : Regulator :=
  { use_count := r.use_count - 1, enabled := decide (0 < r.use_count - 1) }

/-- The call `regulator_enable(r)` of the regulator framework: the return value
comes from the environment, and the regulator changes only on success. -/
def regulator_enable (E : Env) (r : Rail) (w : World) : Int × World :=
  (E.enable r,
   { (w.emit (.regulator_enable r)) with
     regs := if E.enable r = 0 then w.regs.set r (w.regs.get r).acquire else w.regs })

/-- The call `regulator_disable(r)`: as `regulator_enable`, releasing on success. -/
def regulator_disable (E : Env) (r : Rail) (w : World) : Int × World :=
  (E.disable r,
   { (w.emit (.regulator_disable r)) with
     regs := if E.disable r = 0 then w.regs.set r (w.regs.get r).release else w.regs })

/-- The call `regulator_is_enabled(r)`: non-zero when the line is on. -/
def regulator_is_enabled (r : Rail) (w : World) : Int × World :=
  (if (w.regs.get r).enabled then 1 else 0, w.emit (.regulator_is_enabled r))

/-- The call `regulator_set_voltage(r, min_uV, max_uV)`; the arguments are the 32-bit
words the driver computes. -/
def regulator_set_voltage (E : Env) (r : Rail) (min_uV max_uV : Nat) (w : World) :
    Int × World :=
  (E.set_voltage r min_uV max_uV, w.emit (.regulator_set_voltage r min_uV max_uV))

/-- The call `gpiod_set_value(ctx->reset_gpio, value)`. -/
def gpiod_set_value (value : Nat) (w : World) : World :=
  { (w.emit (.gpiod_set_value value)) with reset_gpio := value }

/-- The call `usleep_range(min, max)`. -/
def usleep_range (min max : Nat) (w : World) : World :=
  w.emit (.usleep_range min max)

/-- Subtraction of `u32` values. -/
def u32_sub (a b : Nat) : Nat := (a + 4294967296 - b % 4294967296) % 4294967296

/-- The condition
`regulator_set_voltage(r, uV - 100000, uV - 100000) || regulator_set_voltage(r, uV, uV)`
of `ppa957db2d_set_power`: the second call is made only when the first returns 0.
The result says whether the condition holds (a set voltage failed). -/
def set_voltage_twice (E : Env) (r : Rail) (uV : Nat) (w : World) : Bool × World :=
  match regulator_set_voltage E r (u32_sub uV 100000) (u32_sub uV 100000) w with
  | (ret1, w) =>
    if ret1 ≠ 0 then (true, w)
    else
      match regulator_set_voltage E r uV uV w with
      | (ret2, w) => (decide (ret2 ≠ 0), w)

/-- The part of `ppa957db2d_set_power` with `on` true from the comment
`AVDD power` to the end of the branch and the final `return 0`.  Both branches on the result of
`set_voltage_twice` only log. -/
def ppa957db2d_set_power_bias (E : Env) (spanel : ppa957db2d_panel)
    (i2c_pwr_already_on : Bool) (w : World) : Int × World :=
  match regulator_enable E .avdd w with
  | (ret, w) =>
    if ret ≠ 0 then (ret, w)
    else
      match set_voltage_twice E .avdd spanel.avdd_uV w with
      | (_, w) =>
        let w := usleep_range 1000 1100 w
        match regulator_enable E .avee w with
        | (ret, w) =>
          if ret ≠ 0 then (ret, w)
          else
            match set_voltage_twice E .avee spanel.avee_uV w with
            | (_, w) =>
              let w := usleep_range 1000 1100 w
              if !i2c_pwr_already_on then
                match regulator_disable E .i2c_pwr w with
                | (_, w) => (0, w)
              else (0, w)

/-- The function `ppa957db2d_set_power`; `on_` is the parameter `on`. -/
def ppa957db2d_set_power (E : Env) (spanel : ppa957db2d_panel) (on_ : Bool) (w : World) :
    Int × World :=
  if on_ then
    match regulator_enable E .vddi w with
    | (ret, w) =>
      if ret ≠ 0 then (ret, w)
      else
        let w := usleep_range 2000 3000 w
        match regulator_is_enabled .i2c_pwr w with
        | (en, w) =>
          let i2c_pwr_already_on := decide (en ≠ 0)
          if !i2c_pwr_already_on then
            match regulator_enable E .i2c_pwr w with
            | (ret, w) =>
              if ret ≠ 0 then (ret, w)
              else
                let w := usleep_range 2000 2500 w
                ppa957db2d_set_power_bias E spanel i2c_pwr_already_on w
          else ppa957db2d_set_power_bias E spanel i2c_pwr_already_on w
  else
    let w := gpiod_set_value 0 w
    match regulator_disable E .avee w with
    | (ret, w) =>
      if ret ≠ 0 then (ret, w)
      else
        let w := usleep_range 1000 1100 w
        match regulator_disable E .avdd w with
        | (ret, w) =>
          if ret ≠ 0 then (ret, w)
          else
            let w := usleep_range 6000 7000 w
            match regulator_disable E .vddi w with
            | (ret, w) =>
              if ret ≠ 0 then (ret, w)
              else (0, w)

/-- The calls `set_voltage_twice` makes. -/
def svTrace (E : Env) (r : Rail) (uV : Nat) : List Event :=
  Event.regulator_set_voltage r (u32_sub uV 100000) (u32_sub uV 100000) ::
    (if E.set_voltage r (u32_sub uV 100000) (u32_sub uV 100000) = 0 then
      [Event.regulator_set_voltage r uV uV]
    else [])

/-- The result of the condition `set_voltage_twice` evaluates. -/
def svFailed (E : Env) (r : Rail) (uV : Nat) : Bool :=
  if E.set_voltage r (u32_sub uV 100000) (u32_sub uV 100000) = 0 then
    decide (E.set_voltage r uV uV ≠ 0)
  else true

/-- The calls `ppa957db2d_set_power_bias` makes. -/
def biasTrace (E : Env) (spanel : ppa957db2d_panel) (i2c_pwr_already_on : Bool) : List Event :=
  Event.regulator_enable .avdd ::
    (if E.enable .avdd = 0 then
      svTrace E .avdd spanel.avdd_uV
        ++ [Event.usleep_range 1000 1100, Event.regulator_enable .avee]
        ++ (if E.enable .avee = 0 then
              svTrace E .avee spanel.avee_uV ++ [Event.usleep_range 1000 1100]
                ++ (if i2c_pwr_already_on then [] else [Event.regulator_disable .i2c_pwr])
            else [])
    else [])

/-- The return value of `ppa957db2d_set_power_bias`. -/
def biasRet (E : Env) : Int :=
  if E.enable .avdd = 0 then (if E.enable .avee = 0 then 0 else E.enable .avee)
  else E.enable .avdd

/-- The regulators after `ppa957db2d_set_power_bias`. -/
def biasRegs (E : Env) (i2c_pwr_already_on : Bool) (rs : Regulators) : Regulators :=
  if E.enable .avdd = 0 then
    if E.enable .avee = 0 then
      if i2c_pwr_already_on then
        { rs with avdd := rs.avdd.acquire, avee := rs.avee.acquire }
      else if E.disable .i2c_pwr = 0 then
        { rs with avdd := rs.avdd.acquire, avee := rs.avee.acquire,
                  i2c_pwr := rs.i2c_pwr.release }
      else { rs with avdd := rs.avdd.acquire, avee := rs.avee.acquire }
    else { rs with avdd := rs.avdd.acquire }
  else rs

/-- The calls `ppa957db2d_set_power` makes with `on` true when `held` says
whether `i2c_pwr` is on at entry. -/
def onTrace (E : Env) (spanel : ppa957db2d_panel) (held : Bool) : List Event :=
  Event.regulator_enable .vddi ::
    (if E.enable .vddi = 0 then
      [Event.usleep_range 2000 3000, Event.regulator_is_enabled .i2c_pwr]
        ++ (if held then biasTrace E spanel true
            else
              Event.regulator_enable .i2c_pwr ::
                (if E.enable .i2c_pwr = 0 then
                  Event.usleep_range 2000 2500 :: biasTrace E spanel false
                else []))
    else [])

/-- The return value of `ppa957db2d_set_power` with `on` true. -/
def onRet (E : Env) (held : Bool) : Int :=
  if E.enable .vddi = 0 then
    if held then biasRet E
    else if E.enable .i2c_pwr = 0 then biasRet E else E.enable .i2c_pwr
  else E.enable .vddi

/-- The regulators after `ppa957db2d_set_power` with `on` true. -/
def onRegs (E : Env) (rs : Regulators) : Regulators :=
  if E.enable .vddi = 0 then
    if rs.i2c_pwr.enabled then biasRegs E true { rs with vddi := rs.vddi.acquire }
    else if E.enable .i2c_pwr = 0 then
      biasRegs E false { rs with vddi := rs.vddi.acquire, i2c_pwr := rs.i2c_pwr.acquire }
    else { rs with vddi := rs.vddi.acquire }
  else rs

/-- The calls a run made: the log of the world after the run without the log
of the world before it. -/
def newEvents (before after : World) : List Event :=
  after.log.drop before.log.length

/-- Whether a call is a `regulator_enable` or a `regulator_disable`. -/
def Event.isRailSwitch : Event → Bool
  | .regulator_enable _ => true
  | .regulator_disable _ => true
  | _ => false

/-- Whether a call is a `regulator_disable`. -/
def Event.isDisable : Event → Bool
  | .regulator_disable _ => true
  | _ => false

/-- Whether a call is made on the regulator `r`. -/
def Event.onRail (r : Rail) : Event → Bool
  | .regulator_enable x => decide (x = r)
  | .regulator_disable x => decide (x = r)
  | .regulator_is_enabled x => decide (x = r)
  | .regulator_set_voltage x _ _ => decide (x = r)
  | _ => false

/-- The identity buffer after `n` consecutive single-byte reads, the first being
read number `r0` of the run and going to offset `i`. -/
def fill (E : Env) : (n : Nat) → (r0 : Nat) → (i : Nat) → List Nat → List Nat
  | 0, _, _, buf => buf
  | n + 1, r0, i, buf =>
    fill E n (r0 + 1) (i + 1) (store buf i ((E.dcs_read r0 (0x00 + i) 1).data.take 1))

/-- The reads of registers `i`, `i + 1`, ..., `i + n - 1`, one byte each. -/
def readEvents (i n : Nat) : List Event :=
  (List.range n).map fun k => Event.dcs_read (i + k) 1

/-! ## Steady-state control, reset and prepare -/

def TS110F5MLG0_WRCTRLD_DD_BIT : Nat := 0x08
def TS110F5MLG0_WRCTRLD_BL_BIT : Nat := 0x04
def TS110F5MLG0_WRCTRLD_BCTRL_BIT : Nat := 0x20
def PPA957DB2D_WRCTRLD_DD_BIT : Nat := 0x08
def PPA957DB2D_WRCTRLD_BL_BIT : Nat := 0x04
def PPA957DB2D_WRCTRLD_BCTRL_BIT : Nat := 0x20

/-- The DCS command `MIPI_DCS_WRITE_CONTROL_DISPLAY` of `video/mipi_display.h`. -/
def MIPI_DCS_WRITE_CONTROL_DISPLAY : Nat := 0x53

/-- The function `ts110f5mlg0_update_wrctrld`; `val` is a `u8`. -/
def ts110f5mlg0_update_wrctrld (ctx : exynos_panel) (w : World) : World :=
  let val := (TS110F5MLG0_WRCTRLD_BCTRL_BIT ||| TS110F5MLG0_WRCTRLD_BL_BIT) % 256
  let val := if ctx.dimming_on then (val ||| TS110F5MLG0_WRCTRLD_DD_BIT) % 256 else val
  EXYNOS_DCS_WRITE_SEQ [MIPI_DCS_WRITE_CONTROL_DISPLAY, val] w

/-- The function `ts110f5mlg0_set_dimming_on`. -/
def ts110f5mlg0_set_dimming_on (ctx : exynos_panel) (dimming_on : Bool) (w : World) :
    exynos_panel × World :=
  let ctx := { ctx with dimming_on := dimming_on }
  (ctx, ts110f5mlg0_update_wrctrld ctx w)

/-- The function `ppa957db2d_update_wrctrld`; `val` is a `u8`. -/
def ppa957db2d_update_wrctrld (ctx : exynos_panel) (w : World) : World :=
  let val := (PPA957DB2D_WRCTRLD_BCTRL_BIT ||| PPA957DB2D_WRCTRLD_BL_BIT) % 256
  let val := if ctx.dimming_on then (val ||| PPA957DB2D_WRCTRLD_DD_BIT) % 256 else val
  EXYNOS_DCS_WRITE_SEQ [MIPI_DCS_WRITE_CONTROL_DISPLAY, val] w

/-- The function `ppa957db2d_set_dimming_on`. -/
def ppa957db2d_set_dimming_on (ctx : exynos_panel) (dimming_on : Bool) (w : World) :
    exynos_panel × World :=
  let ctx := { ctx with dimming_on := dimming_on }
  (ctx, ppa957db2d_update_wrctrld ctx w)

/-- The values of `enum exynos_cabc_mode` that the drivers name.  The enum is
declared in the header, so its values are parameters. -/
structure CabcEnum where
  CABC_OFF : Nat
  CABC_UI_MODE : Nat
  CABC_STILL_MODE : Nat
  CABC_MOVIE_MODE : Nat
  deriving DecidableEq, Repr

/-- The enumerators of an enum are pairwise different. -/
def CabcEnum.distinct (C : CabcEnum) : Prop :=
  C.CABC_OFF ≠ C.CABC_UI_MODE ∧ C.CABC_OFF ≠ C.CABC_STILL_MODE
    ∧ C.CABC_OFF ≠ C.CABC_MOVIE_MODE ∧ C.CABC_UI_MODE ≠ C.CABC_STILL_MODE
    ∧ C.CABC_UI_MODE ≠ C.CABC_MOVIE_MODE ∧ C.CABC_STILL_MODE ≠ C.CABC_MOVIE_MODE

/-- The function `ts110f5mlg0_set_cabc_mode` of `panel-boe-ts110f5mlg0.c`.  The
`switch` takes the first label equal to `cabc_mode`, else `default`. -/
def ts110f5mlg0_set_cabc_mode (C : CabcEnum) (cabc_mode : Nat) (w : World) : World :=
  let mode :=
    if cabc_mode = C.CABC_UI_MODE then 0x01
    else if cabc_mode = C.CABC_STILL_MODE then 0x02
    else if cabc_mode = C.CABC_MOVIE_MODE then 0x03
    else 0x00
  EXYNOS_DCS_WRITE_SEQ [0x55, mode] w

/-- The function of `panel-csot-ppa957db2d.c` that carries the name
`ts110f5mlg0_set_cabc_mode` there as well. -/
def panel_csot_ppa957db2d.ts110f5mlg0_set_cabc_mode (C : CabcEnum) (cabc_mode : Nat)
    (w : World) : World :=
  let mode :=
    if cabc_mode = C.CABC_UI_MODE then 0x01
    else if cabc_mode = C.CABC_STILL_MODE then 0x02
    else if cabc_mode = C.CABC_MOVIE_MODE then 0x83
    else 0x00
  EXYNOS_DCS_WRITE_SEQ [0x55, mode] w

/-- The function `ts110f5mlg0_reset`; it assigns no field of `ctx`. -/
def ts110f5mlg0_reset (H : DrvHeader) (ctx : exynos_panel) (w : World) :
    exynos_panel × World :=
  let w :=
    if ctx.panel_state = H.PANEL_STATE_BLANK then
      usleep_range 1000 1100 (gpiod_set_value 0 w)
    else w
  let w := gpiod_set_value 1 w
  let w := usleep_range 1000 1100 w
  let w := gpiod_set_value 0 w
  let w := usleep_range 1000 1100 w
  let w := gpiod_set_value 1 w
  let w := usleep_range 10000 10100 w
  (ctx, w)

/-- The function `ppa957db2d_reset`; it assigns no field of `ctx`. -/
def ppa957db2d_reset (H : DrvHeader) (ctx : exynos_panel) (w : World) :
    exynos_panel × World :=
  let w :=
    if ctx.panel_state = H.PANEL_STATE_BLANK then
      usleep_range 1000 1100 (gpiod_set_value 0 w)
    else w
  let w := gpiod_set_value 1 w
  let w := usleep_range 1000 1100 w
  let w := gpiod_set_value 0 w
  let w := usleep_range 1000 1100 w
  let w := gpiod_set_value 1 w
  let w := usleep_range 10000 10100 w
  (ctx, w)

/-- The type of `exynos_panel_set_power(ctx, on)`, a function of the common
panel driver that is not part of the sources: it returns an `int` and may
change the panel and the world. -/
abbrev SetPower : Type := exynos_panel → Bool → World → Int × exynos_panel × World

/-- The function `ts110f5mlg0_prepare`, with `exynos_panel_set_power` as a
parameter.  The value it returns is not assigned to anything. -/
def ts110f5mlg0_prepare (H : DrvHeader) (exynos_panel_set_power : SetPower)
    (ctx : exynos_panel) (w : World) : Int × exynos_panel × World :=
  match exynos_panel_set_power ctx true w with
  | (_, ctx, w) =>
    let w := usleep_range 18500 18600 w
    match ts110f5mlg0_reset H ctx w with
    | (ctx, w) => (0, ctx, w)

/-- The function `ppa957db2d_prepare`, with `exynos_panel_set_power` as a
parameter.  The value it returns is not assigned to anything. -/
def ppa957db2d_prepare (H : DrvHeader) (exynos_panel_set_power : SetPower)
    (ctx : exynos_panel) (w : World) : Int × exynos_panel × World :=
  match exynos_panel_set_power ctx true w with
  | (_, ctx, w) =>
    let w := usleep_range 18500 18600 w
    match ppa957db2d_reset H ctx w with
    | (ctx, w) => (0, ctx, w)

/-- The calls of the reset pulse that both reset functions always make. -/
def resetPulse : List Event :=
  [Event.gpiod_set_value 1, Event.usleep_range 1000 1100,
   Event.gpiod_set_value 0, Event.usleep_range 1000 1100,
   Event.gpiod_set_value 1, Event.usleep_range 10000 10100]

/-- Whether a call is a register write. -/
def Event.isWrite : Event → Bool
  | .dcs_write _ => true
  | _ => false

/-! ## Sample data -/

/-- A header instance: one bit per revision in ascending order, and an identity
buffer of 40 bytes. -/
def sampleHeader : DrvHeader :=
  { PANEL_ID_MAX := 40
    PANEL_REV_PROTO1 := 1
    PANEL_REV_PROTO2 := 8
    PANEL_REV_EVT1 := 16
    PANEL_REV_EVT1_1 := 64
    PANEL_REV_EVT2 := 256
    PANEL_REV_DVT1 := 512
    PANEL_REV_PVT := 2048
    PANEL_REV_LATEST := 2147483648
    PANEL_STATE_BLANK := 7 }

/-- A transport whose first three reads return one byte each and whose later
reads fail with -5; every regulator call succeeds. -/
def sampleEnvFail : Env :=
  { dcs_read := fun k _ _ => if k < 3 then ⟨1, [65 + k]⟩ else ⟨-5, []⟩
    enable := fun _ => 0
    disable := fun _ => 0
    set_voltage := fun _ _ _ => 0 }

/-- A transport whose read number `k` returns the one byte `65 + k`; every
regulator call succeeds. -/
def sampleEnvOk : Env :=
  { dcs_read := fun k _ _ => ⟨1, [65 + k]⟩
    enable := fun _ => 0
    disable := fun _ => 0
    set_voltage := fun _ _ _ => 0 }

/-- A transport whose read number `k` returns the one byte `65 + k`, except
read number 5, which returns the one byte 0; every regulator call succeeds. -/
def sampleEnvNul : Env :=
  { dcs_read := fun k _ _ => ⟨1, [if k = 5 then 0 else 65 + k]⟩
    enable := fun _ => 0
    disable := fun _ => 0
    set_voltage := fun _ _ _ => 0 }

/-- A world with nothing logged, every regulator off and released. -/
def sampleWorld : World :=
  { log := []
    reads := 0
    regs := ⟨⟨0, false⟩, ⟨0, false⟩, ⟨0, false⟩, ⟨0, false⟩⟩
    reset_gpio := 0 }

/-- A panel of revision `rev` with an identity buffer of 40 bytes. -/
def samplePanel (rev : Nat) : exynos_panel :=
  { panel_rev := rev
    panel_id := List.replicate 40 7
    panel_state := 7
    dimming_on := false
    enabled := false }

/-- The CSOT panel with target voltages 5.8 V on both bias rails. -/
def samplePpa : ppa957db2d_panel :=
  { base := samplePanel 256, avdd_uV := 5800000, avee_uV := 5800000 }

/-- An environment like `sampleEnvOk` with chosen regulator return values. -/
def envWith (enable disable : Rail → Int) (set_voltage : Rail → Nat → Nat → Int) : Env :=
  { dcs_read := fun k _ _ => ⟨1, [65 + k]⟩
    enable := enable
    disable := disable
    set_voltage := set_voltage }

/-- The sample world with the shared line `i2c_pwr` already on. -/
def sampleWorldHeld : World :=
  { sampleWorld with regs := ⟨⟨0, false⟩, ⟨1, true⟩, ⟨0, false⟩, ⟨0, false⟩⟩ }

/-- Every call succeeds except `regulator_enable(avdd)`, which returns -22. -/
def sampleEnvAvddFail : Env :=
  envWith (fun r => if r = Rail.avdd then -22 else 0) (fun _ => 0) (fun _ _ _ => 0)

/-- Every call succeeds except `regulator_disable`, which returns -5. -/
def sampleEnvDisableFail : Env :=
  envWith (fun _ => 0) (fun _ => -5) (fun _ _ _ => 0)

/-- Every call succeeds except `regulator_set_voltage`, which returns -22. -/
def sampleEnvSvFail : Env :=
  envWith (fun _ => 0) (fun _ => 0) (fun _ _ _ => -22)

/-- An enum instance: the enumerators numbered from 0 in the order Off, UI,
Still, Movie. -/
def sampleCabc : CabcEnum :=
  { CABC_OFF := 0, CABC_UI_MODE := 1, CABC_STILL_MODE := 2, CABC_MOVIE_MODE := 3 }

/-- The power function of the CSOT panel as `exynos_panel_set_power`, in the
environment where `regulator_enable(avdd)` fails. -/
def sampleSetPowerFail : SetPower :=
  fun ctx on_ w =>
    ((ppa957db2d_set_power sampleEnvAvddFail samplePpa on_ w).1, ctx,
     (ppa957db2d_set_power sampleEnvAvddFail samplePpa on_ w).2)

/-! ## Theorems -/

theorem rev_of_eq (id : Nat) : rev_of id = (id >>> 12) &&& 0xF := by
  unfold rev_of build_code
  have h1 : (id &&& 0xFF00) >>> 8 = (id >>> 8) &&& 0xFF := by
    apply Nat.eq_of_testBit_eq
    intro j
    have h0 : (0xFF00 : Nat).testBit (8 + j) = (0xFF : Nat).testBit j := by
      rw [← Nat.testBit_shiftRight]; rfl
    simp only [Nat.testBit_shiftRight, Nat.testBit_and, h0]
  have h2 : ∀ x : Nat, x &&& 0xFF = x % 256 := fun x =>
    Nat.and_pow_two_sub_one_eq_mod x 8
  have h3 : ∀ x : Nat, x &&& 0xF = x % 16 := fun x =>
    Nat.and_pow_two_sub_one_eq_mod x 4
  rw [h1, h2, h3]
  simp only [Nat.shiftRight_eq_div_pow]
  omega

theorem rev_of_lt (id : Nat) : rev_of id < 16 := by
  rw [rev_of_eq]
  have h3 : (id >>> 12) &&& 0xF = (id >>> 12) % 16 :=
    Nat.and_pow_two_sub_one_eq_mod _ 4
  omega


theorem ppa_loop_eq (E : Env) (todo i : Nat) (rb : Int) (ctx : exynos_panel) (w : World) :
    ppa957db2d_read_id_loop E todo i rb ctx w = ts110f5mlg0_read_id_loop E todo i rb ctx w := by
  induction todo generalizing i rb ctx w with
  | zero => rfl
  | succ n ih =>
    simp only [ppa957db2d_read_id_loop, ts110f5mlg0_read_id_loop, ih,
      PPA957DB2D_PANEL_ID_REG, TS110F5MLG0_PANEL_ID_REG]

theorem ppa_read_id_eq (H : DrvHeader) (E : Env) (ctx : exynos_panel) (w : World) :
    ppa957db2d_read_id H E ctx w = ts110f5mlg0_read_id H E ctx w := by
  simp only [ppa957db2d_read_id, ts110f5mlg0_read_id, ppa_loop_eq,
    PPA957DB2D_PANEL_ID_LEN, TS110F5MLG0_PANEL_ID_LEN]

theorem readEvents_succ (i n : Nat) :
    readEvents i (n + 1) = Event.dcs_read i 1 :: readEvents (i + 1) n := by
  simp only [readEvents, List.range_succ_eq_map, List.map_cons, List.map_map, Nat.add_zero]
  congr 1
  apply List.map_congr_left
  intro k _
  simp only [Function.comp, Nat.succ_eq_add_one]
  congr 1
  omega

theorem readEvents_zero (i : Nat) : readEvents i 0 = [] := rfl

theorem store_length (buf : List Nat) (off : Nat) (src : List Nat) :
    (store buf off src).length = buf.length := by
  induction src generalizing buf off with
  | nil => rfl
  | cons b bs ih => simp [store, ih]

theorem fill_length (E : Env) (n r0 i : Nat) (buf : List Nat) :
    (fill E n r0 i buf).length = buf.length := by
  induction n generalizing r0 i buf with
  | zero => rfl
  | succ n ih => simp [fill, ih, store_length]

theorem int_of_ssize_t_one : int_of_ssize_t 1 = 1 := by decide

/-- A result in the range of `int` is not changed by the conversion. -/
theorem int_of_ssize_t_of_range (x : Int) (h1 : -2147483648 ≤ x) (h2 : x < 2147483648) :
    int_of_ssize_t x = x := by
  unfold int_of_ssize_t
  omega

/-- The loop when every one of its reads returns 1. -/
theorem loop_ok (E : Env) (todo : Nat) :
    ∀ (i : Nat) (rb : Int) (ctx : exynos_panel) (w : World),
      (∀ k, k < todo → (E.dcs_read (w.reads + k) (i + k) 1).ret = 1) →
      ts110f5mlg0_read_id_loop E todo i rb ctx w
        = (if todo = 0 then rb else 1,
           { ctx with panel_id := fill E todo w.reads i ctx.panel_id },
           { w with log := w.log ++ readEvents i todo, reads := w.reads + todo }) := by
  induction todo with
  | zero =>
    intro i rb ctx w _
    simp [ts110f5mlg0_read_id_loop, fill, readEvents_zero]
  | succ t ih =>
    intro i rb ctx w hok
    have h0 : (E.dcs_read w.reads i 1).ret = 1 := by simpa using hok 0 (by omega)
    have hstep := ih (i + 1) 1
      { ctx with panel_id := store ctx.panel_id i ((E.dcs_read w.reads (0 + i) 1).data.take 1) }
      { (w.emit (.dcs_read (0 + i) 1)) with reads := w.reads + 1 }
      (by
        intro k hk
        have := hok (k + 1) (by omega)
        simpa [World.emit, Nat.add_assoc, Nat.add_comm 1 k] using this)
    simp only [ts110f5mlg0_read_id_loop, mipi_dsi_dcs_read, TS110F5MLG0_PANEL_ID_REG, Nat.zero_add,
      h0, int_of_ssize_t_one, ne_eq, not_true_eq_false, if_false]
    simp only [Nat.zero_add] at hstep
    rw [hstep]
    by_cases ht : t = 0
    · subst ht
      simp [World.emit, fill, readEvents_succ i 0]
    · simp [ht, World.emit, fill, readEvents_succ i t, Nat.add_assoc, Nat.add_comm 1 t]

theorem store_take_one (buf : List Nat) (i : Nat) (data : List Nat) :
    store buf i (data.take 1) = match data with
      | [] => buf
      | b :: _ => buf.set i b := by
  cases data with
  | nil => rfl
  | cons b bs => simp [store]

theorem store_one_get_ne (buf : List Nat) (i j : Nat) (data : List Nat) (h : j ≠ i) :
    (store buf i (data.take 1))[j]? = buf[j]? := by
  rw [store_take_one]
  cases data with
  | nil => rfl
  | cons b bs => simp [List.getElem?_set_ne (Ne.symm h)]

theorem fill_get_below (E : Env) (n : Nat) :
    ∀ (r0 i j : Nat) (buf : List Nat), j < i → (fill E n r0 i buf)[j]? = buf[j]? := by
  induction n with
  | zero => intro r0 i j buf _; rfl
  | succ n ih =>
    intro r0 i j buf h
    simp only [fill]
    rw [ih (r0 + 1) (i + 1) j _ (by omega), store_one_get_ne _ _ _ _ (by omega)]

theorem fill_get (E : Env) (n : Nat) :
    ∀ (r0 i k : Nat) (buf : List Nat), k < n → i + n ≤ buf.length →
      (E.dcs_read (r0 + k) (i + k) 1).data ≠ [] →
      (fill E n r0 i buf)[i + k]? = (E.dcs_read (r0 + k) (i + k) 1).data[0]? := by
  induction n with
  | zero => intro r0 i k buf hk; omega
  | succ n ih =>
    intro r0 i k buf hk hlen hdata
    simp only [fill, Nat.zero_add]
    cases k with
    | zero =>
      simp only [Nat.add_zero] at hdata ⊢
      rw [fill_get_below E n _ _ _ _ (by omega), store_take_one]
      cases hd : (E.dcs_read r0 i 1).data with
      | nil => exact absurd hd hdata
      | cons b bs =>
        simp only [List.getElem?_cons_zero]
        rw [List.getElem?_set_self (by omega : i < buf.length)]
    | succ k =>
      have := ih (r0 + 1) (i + 1) k (store buf i ((E.dcs_read r0 i 1).data.take 1)) (by omega)
        (by rw [store_length]; omega)
        (by simpa [Nat.add_assoc, Nat.add_comm 1 k] using hdata)
      simpa [Nat.add_assoc, Nat.add_comm 1 k] using this

theorem cstr_length_le (l : List Nat) : (cstr l).length ≤ l.length := by
  unfold cstr
  induction l with
  | nil => simp
  | cons a t ih =>
    rw [List.takeWhile_cons]
    split
    · simp only [List.length_cons]
      omega
    · simp

/-- The string in a buffer whose byte `n` is NUL is the string in its first `n`
bytes. -/
theorem cstr_take_of_nul (n : Nat) :
    ∀ l : List Nat, l[n]? = some 0 → cstr l = cstr (l.take n) := by
  induction n with
  | zero =>
    intro l h0
    cases l with
    | nil => rfl
    | cons a t =>
      simp only [List.getElem?_cons_zero, Option.some.injEq] at h0
      simp [cstr, h0]
  | succ n ih =>
    intro l h0
    cases l with
    | nil => rfl
    | cons a t =>
      have iht := ih t (by simpa using h0)
      unfold cstr at iht ⊢
      by_cases ha : a = 0
      · simp [List.takeWhile_cons, ha]
      · simp [List.takeWhile_cons, ha, iht]

theorem cstr_eq_take (n : Nat) :
    ∀ l : List Nat, (∀ k, k < n → l[k]? ≠ some 0) → l[n]? = some 0 → n < l.length →
      cstr l = l.take n := by
  induction n with
  | zero =>
    intro l _ h0 _
    cases l with
    | nil => rfl
    | cons a t =>
      simp only [List.getElem?_cons_zero, Option.some.injEq] at h0
      simp [cstr, h0]
  | succ n ih =>
    intro l hnz h0 hlen
    cases l with
    | nil => simp at hlen
    | cons a t =>
      have ha : a ≠ 0 := by
        have := hnz 0 (by omega)
        simpa using this
      have iht := ih t (fun k hk => by simpa using hnz (k + 1) (by omega)) (by simpa using h0)
        (by simpa using hlen)
      unfold cstr at iht ⊢
      simp [List.takeWhile_cons, ha, iht]

theorem strlcpy_str_0 (buf : List Nat) (size : Nat) (hs : 2 ≤ size) (hl : 2 ≤ buf.length) :
    cstr (strlcpy buf str_0 size) = str_0 := by
  match buf, hl with
  | a :: b :: t, _ =>
    have h1 : ¬ size = 0 := by omega
    have h2 : ¬ 1 ≥ size := by omega
    simp [strlcpy, str_0, h1, h2, store, cstr, List.takeWhile_cons]

/-- C1: for every identity word `id`, both `get_panel_rev` functions take the
index `n = (id >> 12) & 0xF`, store the `n`-th entry of the table
[Proto1, Proto2, Evt1, Evt1_1, Evt2, Dvt1, Pvt] when `n < 7` and
`PANEL_REV_LATEST` when `n ≥ 7`, never read the table outside its 7 entries
(the result is `some _`), and give the same result for any other word with the
same `n`. -/
theorem C1_get_panel_rev (H : DrvHeader) (ctx : exynos_panel) (id : Nat) :
    ts110f5mlg0_get_panel_rev H ctx id
        = some { ctx with panel_rev := rev_at H ((id >>> 12) &&& 0xF) }
      ∧ ppa957db2d_get_panel_rev H ctx id
        = some { ctx with panel_rev := rev_at H ((id >>> 12) &&& 0xF) }
      ∧ (ts110f5mlg0_panel_rev H).length = 7 ∧ (ppa957db2d_panel_rev H).length = 7
      ∧ (∀ n, n < 7 → (ts110f5mlg0_panel_rev H)[n]? = some (rev_at H n)
                    ∧ (ppa957db2d_panel_rev H)[n]? = some (rev_at H n))
      ∧ (∀ n, 7 ≤ n → rev_at H n = H.PANEL_REV_LATEST)
      ∧ (∀ id2, (id2 >>> 12) &&& 0xF = (id >>> 12) &&& 0xF →
          ts110f5mlg0_get_panel_rev H ctx id2 = ts110f5mlg0_get_panel_rev H ctx id
          ∧ ppa957db2d_get_panel_rev H ctx id2 = ppa957db2d_get_panel_rev H ctx id) := by
  have key : ∀ x : Nat,
      ts110f5mlg0_get_panel_rev H ctx x
          = some { ctx with panel_rev := rev_at H ((x >>> 12) &&& 0xF) }
        ∧ ppa957db2d_get_panel_rev H ctx x
          = some { ctx with panel_rev := rev_at H ((x >>> 12) &&& 0xF) } := by
    intro x
    have hlt := rev_of_lt x
    rw [← rev_of_eq]
    unfold ts110f5mlg0_get_panel_rev ppa957db2d_get_panel_rev
    generalize rev_of x = n at hlt
    interval_cases n <;> simp [ts110f5mlg0_panel_rev, ppa957db2d_panel_rev, rev_at]
  refine ⟨(key id).1, (key id).2, rfl, rfl, ?_, ?_, ?_⟩
  · intro n hn
    interval_cases n <;> simp [ts110f5mlg0_panel_rev, ppa957db2d_panel_rev, rev_at]
  · intro n hn
    unfold rev_at
    split <;> first | rfl | omega
  · intro id2 h
    rw [(key id2).1, (key id2).2, (key id).1, (key id).2, h]
    exact ⟨rfl, rfl⟩

/-- C2: below the capability threshold (`panel_rev < PANEL_REV_EVT2`) both
`read_id` functions return 0, leave the identity string equal to "0" and leave
the world as it was (no register write, no register read), whatever the
transport would answer. -/
theorem C2_read_id_below_threshold (H : DrvHeader) (E : Env) (ctx : exynos_panel) (w : World)
    (hmax : 37 < H.PANEL_ID_MAX) (hlen : ctx.panel_id.length = H.PANEL_ID_MAX)
    (hrev : ctx.panel_rev < H.PANEL_REV_EVT2) :
    (ts110f5mlg0_read_id H E ctx w).1 = 0
      ∧ cstr (ts110f5mlg0_read_id H E ctx w).2.1.panel_id = str_0
      ∧ (ts110f5mlg0_read_id H E ctx w).2.2 = w
      ∧ (ppa957db2d_read_id H E ctx w).1 = 0
      ∧ cstr (ppa957db2d_read_id H E ctx w).2.1.panel_id = str_0
      ∧ (ppa957db2d_read_id H E ctx w).2.2 = w := by
  have hs : cstr (strlcpy ctx.panel_id str_0 H.PANEL_ID_MAX) = str_0 :=
    strlcpy_str_0 _ _ (by omega) (by omega)
  rw [ppa_read_id_eq]
  simp [ts110f5mlg0_read_id, hrev, hs]

theorem C2_read_id_below_threshold_witness :
    37 < sampleHeader.PANEL_ID_MAX
      ∧ (samplePanel 16).panel_id.length = sampleHeader.PANEL_ID_MAX
      ∧ (samplePanel 16).panel_rev < sampleHeader.PANEL_REV_EVT2
      ∧ (ts110f5mlg0_read_id sampleHeader sampleEnvFail (samplePanel 16) sampleWorld).1 = 0
      ∧ cstr (ts110f5mlg0_read_id sampleHeader sampleEnvFail (samplePanel 16)
          sampleWorld).2.1.panel_id = str_0
      ∧ (ts110f5mlg0_read_id sampleHeader sampleEnvFail (samplePanel 16) sampleWorld).2.2
          = sampleWorld
      ∧ (ppa957db2d_read_id sampleHeader sampleEnvFail (samplePanel 16) sampleWorld).1 = 0
      ∧ cstr (ppa957db2d_read_id sampleHeader sampleEnvFail (samplePanel 16)
          sampleWorld).2.1.panel_id = str_0
      ∧ (ppa957db2d_read_id sampleHeader sampleEnvFail (samplePanel 16) sampleWorld).2.2
          = sampleWorld :=
  ⟨by decide, by decide, by decide,
    C2_read_id_below_threshold sampleHeader sampleEnvFail (samplePanel 16) sampleWorld
      (by decide) (by decide) (by decide)⟩

/-- The run of `ts110f5mlg0_read_id` at or above the threshold when all 37 reads
return one byte. -/
theorem read_id_ok (H : DrvHeader) (E : Env) (ctx : exynos_panel) (w : World)
    (hmax : 37 < H.PANEL_ID_MAX) (hlen : ctx.panel_id.length = H.PANEL_ID_MAX)
    (hrev : H.PANEL_REV_EVT2 ≤ ctx.panel_rev)
    (hok : ∀ k, k < 37 → (E.dcs_read (w.reads + k) k 1).ret = 1
      ∧ (E.dcs_read (w.reads + k) k 1).data ≠ []) :
    (ts110f5mlg0_read_id H E ctx w).1 = 0
      ∧ (∀ k, k < 37 → (ts110f5mlg0_read_id H E ctx w).2.1.panel_id[k]?
          = (E.dcs_read (w.reads + k) k 1).data[0]?)
      ∧ (ts110f5mlg0_read_id H E ctx w).2.1.panel_id[37]? = some 0
      ∧ ((∀ k, k < 37 → (E.dcs_read (w.reads + k) k 1).data[0]? ≠ some 0) →
          cstr (ts110f5mlg0_read_id H E ctx w).2.1.panel_id
              = (ts110f5mlg0_read_id H E ctx w).2.1.panel_id.take 37
            ∧ (cstr (ts110f5mlg0_read_id H E ctx w).2.1.panel_id).length = 37)
      ∧ (cstr (ts110f5mlg0_read_id H E ctx w).2.1.panel_id
            = cstr ((ts110f5mlg0_read_id H E ctx w).2.1.panel_id.take 37)
          ∧ (cstr (ts110f5mlg0_read_id H E ctx w).2.1.panel_id).length ≤ 37)
      ∧ (ts110f5mlg0_read_id H E ctx w).2.2.log
          = w.log ++ [Event.dcs_write [0xFF, 0x22], Event.dcs_write [0xFB, 0x01]]
              ++ (List.range 37).map (fun k => Event.dcs_read k 1)
              ++ [Event.dcs_write [0xFF, 0x10], Event.dcs_write [0xFB, 0x01]] := by
  have hloop := loop_ok E TS110F5MLG0_PANEL_ID_LEN 0 0 ctx
    (EXYNOS_DCS_WRITE_SEQ [0xFB, 0x01] (EXYNOS_DCS_WRITE_SEQ [0xFF, 0x22] w))
    (by
      intro k hk
      simpa [EXYNOS_DCS_WRITE_SEQ, World.emit] using (hok k hk).1)
  have hnot : ¬ ctx.panel_rev < H.PANEL_REV_EVT2 := by omega
  have hres : ts110f5mlg0_read_id H E ctx w
      = (0, { ctx with panel_id := (fill E 37 w.reads 0 ctx.panel_id).set 37 0 },
          { w with
            log := w.log ++ [Event.dcs_write [0xFF, 0x22], Event.dcs_write [0xFB, 0x01]]
              ++ readEvents 0 37
              ++ [Event.dcs_write [0xFF, 0x10], Event.dcs_write [0xFB, 0x01]]
            reads := w.reads + 37 }) := by
    simp only [ts110f5mlg0_read_id, hnot, if_false, hloop]
    simp [EXYNOS_DCS_WRITE_SEQ, World.emit, TS110F5MLG0_PANEL_ID_LEN]
  have hfl : (fill E 37 w.reads 0 ctx.panel_id).length = H.PANEL_ID_MAX := by
    rw [fill_length, hlen]
  have hget : ∀ k, k < 37 → ((fill E 37 w.reads 0 ctx.panel_id).set 37 0)[k]?
      = (E.dcs_read (w.reads + k) k 1).data[0]? := by
    intro k hk
    rw [List.getElem?_set_ne (by omega)]
    have := fill_get E 37 w.reads 0 k ctx.panel_id hk (by omega)
      (by simpa using (hok k hk).2)
    simpa using this
  have h37 : ((fill E 37 w.reads 0 ctx.panel_id).set 37 0)[37]? = some 0 := by
    rw [List.getElem?_set_self (by omega)]
  rw [hres]
  refine ⟨rfl, hget, h37, ?_, ?_, ?_⟩
  · intro hnz
    have hc := cstr_eq_take 37 ((fill E 37 w.reads 0 ctx.panel_id).set 37 0)
      (fun k hk => by rw [hget k hk]; exact hnz k hk) h37
      (by rw [List.length_set]; omega)
    refine ⟨hc, ?_⟩
    simp only [] at hc ⊢
    rw [hc, List.length_take, List.length_set, hfl]
    omega
  · have hc := cstr_take_of_nul 37 ((fill E 37 w.reads 0 ctx.panel_id).set 37 0) h37
    refine ⟨hc, ?_⟩
    simp only [] at hc ⊢
    rw [hc]
    exact le_trans (cstr_length_le _) (List.length_take_le _ _)
  · simp [readEvents]

/-- C4, as stated, fails when a returned byte is NUL: with one byte returned by
each of the 37 reads and the byte of read 6 equal to 0, both `read_id`
functions return 0 and the identity string has 5 characters, not 37. -/
theorem C4_counterexample :
    (∀ k, k < 37 → (sampleEnvNul.dcs_read (sampleWorld.reads + k) k 1).ret = 1
        ∧ (sampleEnvNul.dcs_read (sampleWorld.reads + k) k 1).data.length = 1)
      ∧ (ts110f5mlg0_read_id sampleHeader sampleEnvNul (samplePanel 256) sampleWorld).1 = 0
      ∧ cstr (ts110f5mlg0_read_id sampleHeader sampleEnvNul (samplePanel 256)
          sampleWorld).2.1.panel_id = [65, 66, 67, 68, 69]
      ∧ (ppa957db2d_read_id sampleHeader sampleEnvNul (samplePanel 256) sampleWorld).1 = 0
      ∧ cstr (ppa957db2d_read_id sampleHeader sampleEnvNul (samplePanel 256)
          sampleWorld).2.1.panel_id = [65, 66, 67, 68, 69] := by
  decide

/-- C4 (amended): at or above the threshold, when each of the 37 reads returns
one byte, both `read_id` functions return 0; bytes 0..36 of the identity
buffer are the bytes returned by the reads of registers 0x00..0x24, read in
ascending address order, and byte 37 is NUL; the identity string is these
bytes up to the first NUL among them, at most 37 characters, and it is the 37
characters when none of the returned bytes is NUL. -/
theorem C4_read_id_success (H : DrvHeader) (E : Env) (ctx : exynos_panel) (w : World)
    (hmax : 37 < H.PANEL_ID_MAX) (hlen : ctx.panel_id.length = H.PANEL_ID_MAX)
    (hrev : H.PANEL_REV_EVT2 ≤ ctx.panel_rev)
    (hok : ∀ k, k < 37 → (E.dcs_read (w.reads + k) k 1).ret = 1
      ∧ (E.dcs_read (w.reads + k) k 1).data ≠ []) :
    ((ts110f5mlg0_read_id H E ctx w).1 = 0
      ∧ (∀ k, k < 37 → (ts110f5mlg0_read_id H E ctx w).2.1.panel_id[k]?
          = (E.dcs_read (w.reads + k) k 1).data[0]?)
      ∧ (ts110f5mlg0_read_id H E ctx w).2.1.panel_id[37]? = some 0
      ∧ ((∀ k, k < 37 → (E.dcs_read (w.reads + k) k 1).data[0]? ≠ some 0) →
          cstr (ts110f5mlg0_read_id H E ctx w).2.1.panel_id
              = (ts110f5mlg0_read_id H E ctx w).2.1.panel_id.take 37
            ∧ (cstr (ts110f5mlg0_read_id H E ctx w).2.1.panel_id).length = 37)
      ∧ (cstr (ts110f5mlg0_read_id H E ctx w).2.1.panel_id
            = cstr ((ts110f5mlg0_read_id H E ctx w).2.1.panel_id.take 37)
          ∧ (cstr (ts110f5mlg0_read_id H E ctx w).2.1.panel_id).length ≤ 37)
      ∧ (ts110f5mlg0_read_id H E ctx w).2.2.log
          = w.log ++ [Event.dcs_write [0xFF, 0x22], Event.dcs_write [0xFB, 0x01]]
              ++ (List.range 37).map (fun k => Event.dcs_read k 1)
              ++ [Event.dcs_write [0xFF, 0x10], Event.dcs_write [0xFB, 0x01]])
    ∧ ((ppa957db2d_read_id H E ctx w).1 = 0
      ∧ (∀ k, k < 37 → (ppa957db2d_read_id H E ctx w).2.1.panel_id[k]?
          = (E.dcs_read (w.reads + k) k 1).data[0]?)
      ∧ (ppa957db2d_read_id H E ctx w).2.1.panel_id[37]? = some 0
      ∧ ((∀ k, k < 37 → (E.dcs_read (w.reads + k) k 1).data[0]? ≠ some 0) →
          cstr (ppa957db2d_read_id H E ctx w).2.1.panel_id
              = (ppa957db2d_read_id H E ctx w).2.1.panel_id.take 37
            ∧ (cstr (ppa957db2d_read_id H E ctx w).2.1.panel_id).length = 37)
      ∧ (cstr (ppa957db2d_read_id H E ctx w).2.1.panel_id
            = cstr ((ppa957db2d_read_id H E ctx w).2.1.panel_id.take 37)
          ∧ (cstr (ppa957db2d_read_id H E ctx w).2.1.panel_id).length ≤ 37)
      ∧ (ppa957db2d_read_id H E ctx w).2.2.log
          = w.log ++ [Event.dcs_write [0xFF, 0x22], Event.dcs_write [0xFB, 0x01]]
              ++ (List.range 37).map (fun k => Event.dcs_read k 1)
              ++ [Event.dcs_write [0xFF, 0x10], Event.dcs_write [0xFB, 0x01]]) := by
  have h := read_id_ok H E ctx w hmax hlen hrev hok
  rw [ppa_read_id_eq]
  exact ⟨h, h⟩

theorem C4_read_id_success_witness :
    37 < sampleHeader.PANEL_ID_MAX
      ∧ (samplePanel 256).panel_id.length = sampleHeader.PANEL_ID_MAX
      ∧ sampleHeader.PANEL_REV_EVT2 ≤ (samplePanel 256).panel_rev
      ∧ (∀ k, k < 37 → (sampleEnvOk.dcs_read (sampleWorld.reads + k) k 1).ret = 1
          ∧ (sampleEnvOk.dcs_read (sampleWorld.reads + k) k 1).data ≠ [])
      ∧ (ts110f5mlg0_read_id sampleHeader sampleEnvOk (samplePanel 256) sampleWorld).1 = 0
      ∧ (ppa957db2d_read_id sampleHeader sampleEnvOk (samplePanel 256) sampleWorld).1 = 0
      ∧ (ppa957db2d_read_id sampleHeader sampleEnvOk (samplePanel 256)
          sampleWorld).2.1.panel_id[37]? = some 0 :=
  have hok : ∀ k, k < 37 → (sampleEnvOk.dcs_read (sampleWorld.reads + k) k 1).ret = 1
      ∧ (sampleEnvOk.dcs_read (sampleWorld.reads + k) k 1).data ≠ [] :=
    fun _ _ => ⟨rfl, by simp [sampleEnvOk]⟩
  have h := C4_read_id_success sampleHeader sampleEnvOk (samplePanel 256) sampleWorld
    (by decide) (by decide) (by decide) hok
  ⟨by decide, by decide, by decide, hok, h.1.1, h.2.1, h.2.2.2.1⟩

theorem set_voltage_twice_eq (E : Env) (r : Rail) (uV : Nat) (w : World) :
    set_voltage_twice E r uV w
      = (svFailed E r uV, { w with log := w.log ++ svTrace E r uV }) := by
  by_cases h : E.set_voltage r (u32_sub uV 100000) (u32_sub uV 100000) = 0 <;>
    simp [set_voltage_twice, regulator_set_voltage, World.emit, svTrace, svFailed, h]

theorem set_power_bias_eq (E : Env) (spanel : ppa957db2d_panel) (a : Bool) (w : World) :
    ppa957db2d_set_power_bias E spanel a w
      = (biasRet E, { w with log := w.log ++ biasTrace E spanel a,
                             regs := biasRegs E a w.regs }) := by
  unfold ppa957db2d_set_power_bias
  by_cases h1 : E.enable .avdd = 0
  · by_cases h2 : E.enable .avee = 0
    · cases a
      · by_cases h3 : E.disable .i2c_pwr = 0 <;>
          simp [set_voltage_twice_eq, h1, h2, h3, regulator_enable, regulator_disable, usleep_range,
            World.emit, biasRet, biasTrace, biasRegs, Regulators.get, Regulators.set]
      · simp [set_voltage_twice_eq, h1, h2, regulator_enable, regulator_disable, usleep_range,
            World.emit, biasRet, biasTrace, biasRegs, Regulators.get, Regulators.set]
    · simp [set_voltage_twice_eq, h1, h2, regulator_enable, usleep_range,
            World.emit, biasRet, biasTrace, biasRegs, Regulators.get, Regulators.set]
  · simp [h1, regulator_enable, World.emit, biasRet, biasTrace, biasRegs]

theorem set_power_on_eq (E : Env) (spanel : ppa957db2d_panel) (w : World) :
    ppa957db2d_set_power E spanel true w
      = (onRet E w.regs.i2c_pwr.enabled,
         { w with log := w.log ++ onTrace E spanel w.regs.i2c_pwr.enabled,
                  regs := onRegs E w.regs }) := by
  unfold ppa957db2d_set_power
  by_cases h1 : E.enable .vddi = 0
  · cases hh : w.regs.i2c_pwr.enabled
    · by_cases h2 : E.enable .i2c_pwr = 0
      · simp [h1, h2, hh, set_power_bias_eq, regulator_enable, regulator_is_enabled, usleep_range,
          World.emit, onRet, onTrace, onRegs, Regulators.get, Regulators.set]
      · simp [h1, h2, hh, regulator_enable, regulator_is_enabled, usleep_range,
          World.emit, onRet, onTrace, onRegs, Regulators.get, Regulators.set]
    · simp [h1, hh, set_power_bias_eq, regulator_enable, regulator_is_enabled, usleep_range,
          World.emit, onRet, onTrace, onRegs, Regulators.get, Regulators.set]
  · simp [h1, regulator_enable, World.emit, onRet, onTrace, onRegs]

theorem newEvents_append (w : World) (l : List Event) (rd : Nat) (rs : Regulators) (g : Nat) :
    newEvents w { log := w.log ++ l, reads := rd, regs := rs, reset_gpio := g } = l := by
  simp [newEvents]

theorem newEvents_set_power_on (E : Env) (spanel : ppa957db2d_panel) (w : World) :
    newEvents w (ppa957db2d_set_power E spanel true w).2
      = onTrace E spanel w.regs.i2c_pwr.enabled := by
  rw [set_power_on_eq]
  exact newEvents_append _ _ _ _ _

/-- C5: when `i2c_pwr` is on at entry, `ppa957db2d_set_power` with `on` true
makes no `regulator_enable` and no `regulator_disable` call on it, whatever
the other regulator calls return, and `regulator_is_enabled(i2c_pwr)` gives
the same answer after the run as before. -/
theorem C5_power_on_shared_line_held (E : Env) (spanel : ppa957db2d_panel) (w : World)
    (hheld : (regulator_is_enabled .i2c_pwr w).1 ≠ 0) :
    (∀ e, e ∈ newEvents w (ppa957db2d_set_power E spanel true w).2 →
        e ≠ Event.regulator_enable .i2c_pwr ∧ e ≠ Event.regulator_disable .i2c_pwr)
      ∧ (ppa957db2d_set_power E spanel true w).2.regs.i2c_pwr = w.regs.i2c_pwr
      ∧ (regulator_is_enabled .i2c_pwr (ppa957db2d_set_power E spanel true w).2).1
          = (regulator_is_enabled .i2c_pwr w).1 := by
  have hen : w.regs.i2c_pwr.enabled = true := by
    simpa [regulator_is_enabled, Regulators.get] using hheld
  have hregs : (onRegs E w.regs).i2c_pwr = w.regs.i2c_pwr := by
    simp only [onRegs, biasRegs, hen]
    split_ifs <;> rfl
  refine ⟨?_, ?_, ?_⟩
  · rw [newEvents_set_power_on, hen]
    intro e he
    constructor <;> rintro rfl <;>
      simp only [onTrace, biasTrace, svTrace] at he <;>
      split_ifs at he <;> simp at he
  · rw [set_power_on_eq]; exact hregs
  · rw [set_power_on_eq]
    simp [regulator_is_enabled, Regulators.get, hregs]


theorem C5_power_on_shared_line_held_witness :
    (regulator_is_enabled .i2c_pwr sampleWorldHeld).1 ≠ 0
      ∧ (ppa957db2d_set_power sampleEnvAvddFail samplePpa true sampleWorldHeld).2.regs.i2c_pwr
          = sampleWorldHeld.regs.i2c_pwr
      ∧ (regulator_is_enabled .i2c_pwr
          (ppa957db2d_set_power sampleEnvAvddFail samplePpa true sampleWorldHeld).2).1
          = (regulator_is_enabled .i2c_pwr sampleWorldHeld).1 :=
  ⟨by decide,
    (C5_power_on_shared_line_held sampleEnvAvddFail samplePpa sampleWorldHeld (by decide)).2⟩

/-- C6, as stated, fails: entered with `i2c_pwr` off and unused, a run in which
`regulator_enable(avdd)` fails makes one enable call and no disable call on
`i2c_pwr` and leaves it on with use count 1; and a run in which the final
`regulator_disable(i2c_pwr)` fails leaves it on with use count 1 as well. -/
theorem C6_counterexample :
    sampleWorld.regs.i2c_pwr = ⟨0, false⟩
      ∧ (newEvents sampleWorld
            (ppa957db2d_set_power sampleEnvAvddFail samplePpa true sampleWorld).2).filter
          (fun e => e.isRailSwitch && Event.onRail .i2c_pwr e)
          = [Event.regulator_enable .i2c_pwr]
      ∧ (ppa957db2d_set_power sampleEnvAvddFail samplePpa true sampleWorld).2.regs.i2c_pwr
          = ⟨1, true⟩
      ∧ (ppa957db2d_set_power sampleEnvDisableFail samplePpa true sampleWorld).2.regs.i2c_pwr
          = ⟨1, true⟩ := by
  decide


/-- C6 (amended): entered with `i2c_pwr` off and unused, a run of
`ppa957db2d_set_power` with `on` true in which the four enables (vddi,
i2c_pwr, avdd, avee) succeed makes on `i2c_pwr` exactly one enable call and
then exactly one disable call, and when that disable succeeds the regulator is
back in its entry state (off, use count 0). -/
theorem C6_power_on_shared_line_not_held (E : Env) (spanel : ppa957db2d_panel) (w : World)
    (hnot : (regulator_is_enabled .i2c_pwr w).1 = 0)
    (hcount : w.regs.i2c_pwr.use_count = 0)
    (h1 : E.enable .vddi = 0) (h2 : E.enable .i2c_pwr = 0)
    (h3 : E.enable .avdd = 0) (h4 : E.enable .avee = 0) :
    (newEvents w (ppa957db2d_set_power E spanel true w).2).filter
        (fun e => e.isRailSwitch && Event.onRail .i2c_pwr e)
        = [Event.regulator_enable .i2c_pwr, Event.regulator_disable .i2c_pwr]
      ∧ (E.disable .i2c_pwr = 0 →
          (ppa957db2d_set_power E spanel true w).2.regs.i2c_pwr = w.regs.i2c_pwr
            ∧ (regulator_is_enabled .i2c_pwr (ppa957db2d_set_power E spanel true w).2).1 = 0) := by
  have hen : w.regs.i2c_pwr.enabled = false := by
    simpa [regulator_is_enabled, Regulators.get] using hnot
  refine ⟨?_, ?_⟩
  · rw [newEvents_set_power_on, hen]
    by_cases hs1 : E.set_voltage .avdd (u32_sub spanel.avdd_uV 100000)
        (u32_sub spanel.avdd_uV 100000) = 0 <;>
      by_cases hs2 : E.set_voltage .avee (u32_sub spanel.avee_uV 100000)
        (u32_sub spanel.avee_uV 100000) = 0 <;>
      simp [onTrace, biasTrace, svTrace, h1, h2, h3, h4, hs1, hs2, Event.isRailSwitch,
        Event.onRail]
  · intro h5
    have hregs : (onRegs E w.regs).i2c_pwr = w.regs.i2c_pwr := by
      cases hr : w.regs.i2c_pwr with
      | mk c en =>
        rw [hr] at hen hcount
        simp only at hen hcount
        subst hen hcount
        simp [onRegs, biasRegs, h1, h2, h3, h4, h5, hr, Regulator.acquire, Regulator.release]
    rw [set_power_on_eq]
    refine ⟨hregs, ?_⟩
    simp [regulator_is_enabled, Regulators.get, hregs, hen]

theorem C6_power_on_shared_line_not_held_witness :
    (regulator_is_enabled .i2c_pwr sampleWorld).1 = 0
      ∧ sampleWorld.regs.i2c_pwr.use_count = 0
      ∧ sampleEnvOk.enable .vddi = 0 ∧ sampleEnvOk.enable .i2c_pwr = 0
      ∧ sampleEnvOk.enable .avdd = 0 ∧ sampleEnvOk.enable .avee = 0
      ∧ (newEvents sampleWorld
          (ppa957db2d_set_power sampleEnvOk samplePpa true sampleWorld).2).filter
          (fun e => e.isRailSwitch && Event.onRail .i2c_pwr e)
          = [Event.regulator_enable .i2c_pwr, Event.regulator_disable .i2c_pwr] :=
  ⟨by decide, by decide, by decide, by decide, by decide, by decide,
    (C6_power_on_shared_line_not_held sampleEnvOk samplePpa sampleWorld
      (by decide) (by decide) (by decide) (by decide) (by decide) (by decide)).1⟩

/-- C7, as stated, fails for the final disable of the shared line: when
`regulator_disable(i2c_pwr)` is called and returns -5, `ppa957db2d_set_power`
returns 0, not -5. -/
theorem C7_counterexample :
    Event.regulator_disable .i2c_pwr
        ∈ newEvents sampleWorld
            (ppa957db2d_set_power sampleEnvDisableFail samplePpa true sampleWorld).2
      ∧ sampleEnvDisableFail.disable .i2c_pwr = -5
      ∧ (ppa957db2d_set_power sampleEnvDisableFail samplePpa true sampleWorld).1 = 0 := by
  decide

theorem getLast?_cons_of_some {α : Type} {a b : α} {l : List α} (h : l.getLast? = some b) :
    (a :: l).getLast? = some b := by
  cases l with
  | nil => simp at h
  | cons c t => rw [List.getLast?_cons_cons]; exact h

theorem getLast?_append_of_some {α : Type} {b : α} (l1 : List α) {l2 : List α}
    (h : l2.getLast? = some b) : (l1 ++ l2).getLast? = some b := by
  simp [List.getLast?_append, h]

theorem mem_svTrace (E : Env) (r : Rail) (uV : Nat) (e : Event) (h : e ∈ svTrace E r uV) :
    e = Event.regulator_set_voltage r (u32_sub uV 100000) (u32_sub uV 100000)
      ∨ e = Event.regulator_set_voltage r uV uV := by
  unfold svTrace at h
  split_ifs at h
  · simpa using h
  · exact Or.inl (by simpa using h)

theorem enable_not_mem_svTrace (E : Env) (r x : Rail) (uV : Nat) :
    Event.regulator_enable x ∉ svTrace E r uV := by
  intro h
  rcases mem_svTrace E r uV _ h with h | h <;> simp at h

theorem isDisable_of_mem_svTrace (E : Env) (r : Rail) (uV : Nat) (e : Event)
    (h : e ∈ svTrace E r uV) : e.isDisable = false := by
  rcases mem_svTrace E r uV _ h with rfl | rfl <;> rfl

/-- The bias part of the power-on sequence when one of its enables fails. -/
theorem bias_enable_fail (E : Env) (spanel : ppa957db2d_panel) (a : Bool) (rail : Rail)
    (hcall : Event.regulator_enable rail ∈ biasTrace E spanel a) (hfail : E.enable rail ≠ 0) :
    biasRet E = E.enable rail
      ∧ (biasTrace E spanel a).getLast? = some (Event.regulator_enable rail)
      ∧ (∀ e, e ∈ biasTrace E spanel a → e.isDisable = false) := by
  by_cases ha : E.enable .avdd = 0
  · by_cases he : E.enable .avee = 0
    · exfalso
      cases rail <;> cases a <;>
        simp_all [biasTrace, enable_not_mem_svTrace]
    · have hr : rail = .avee := by
        cases rail <;> simp_all [biasTrace, enable_not_mem_svTrace]
      subst hr
      refine ⟨by simp [biasRet, ha, he], ?_, ?_⟩
      · simp only [biasTrace, ha, he, if_true, if_false, List.append_nil]
        exact getLast?_cons_of_some (getLast?_append_of_some _ rfl)
      · intro e hmem
        simp only [biasTrace, ha, he, if_true, if_false, List.append_nil, List.mem_cons,
          List.mem_append, List.mem_singleton, List.not_mem_nil, or_false] at hmem
        rcases hmem with rfl | (hmem | rfl | rfl)
        · rfl
        · exact isDisable_of_mem_svTrace _ _ _ _ hmem
        · rfl
        · rfl
  · have hr : rail = .avdd := by
      cases rail <;> simp_all [biasTrace]
    subst hr
    simp [biasTrace, biasRet, ha, Event.isDisable]

/-- A failing enable of a power-on run: its error is returned, it is the last
call, and the run has no disable. -/
theorem power_on_enable_fail (E : Env) (spanel : ppa957db2d_panel) (w : World)
    (rail : Rail)
    (hcall : Event.regulator_enable rail ∈ newEvents w (ppa957db2d_set_power E spanel true w).2)
    (hfail : E.enable rail ≠ 0) :
    (ppa957db2d_set_power E spanel true w).1 = E.enable rail
      ∧ (newEvents w (ppa957db2d_set_power E spanel true w).2).getLast?
          = some (Event.regulator_enable rail)
      ∧ (∀ e, e ∈ newEvents w (ppa957db2d_set_power E spanel true w).2 →
          e.isDisable = false) := by
  rw [newEvents_set_power_on] at hcall ⊢
  rw [set_power_on_eq]
  simp only []
  by_cases hv : E.enable .vddi = 0
  · cases hh : w.regs.i2c_pwr.enabled
    · by_cases hi : E.enable .i2c_pwr = 0
      · rw [hh] at hcall
        have hb : Event.regulator_enable rail ∈ biasTrace E spanel false := by
          cases rail <;> simp_all [onTrace]
        obtain ⟨b1, b2, b3⟩ := bias_enable_fail E spanel false rail hb hfail
        refine ⟨by simp [onRet, hv, hi, b1], ?_, ?_⟩
        · simp only [onTrace, hv, hi, if_true, if_false, Bool.false_eq_true, List.cons_append,
            List.nil_append]
          exact getLast?_cons_of_some (getLast?_cons_of_some (getLast?_cons_of_some
            (getLast?_cons_of_some (getLast?_cons_of_some b2))))
        · intro e he
          simp only [onTrace, hv, hi] at he
          simp at he
          rcases he with rfl | rfl | rfl | rfl | rfl | he
          all_goals first | rfl | exact b3 e he
      · rw [hh] at hcall
        cases rail <;> simp_all [onTrace, onRet, Event.isDisable]
    · rw [hh] at hcall
      have hb : Event.regulator_enable rail ∈ biasTrace E spanel true := by
        cases rail <;> simp_all [onTrace]
      obtain ⟨b1, b2, b3⟩ := bias_enable_fail E spanel true rail hb hfail
      refine ⟨by simp [onRet, hv, b1], ?_, ?_⟩
      · simp only [onTrace, hv, if_true, List.cons_append, List.nil_append]
        exact getLast?_cons_of_some (getLast?_cons_of_some (getLast?_cons_of_some b2))
      · intro e he
        simp only [onTrace, hv] at he
        simp at he
        rcases he with rfl | rfl | rfl | he
        all_goals first | rfl | exact b3 e he
  · cases rail <;> simp_all [onTrace, onRet, Event.isDisable]

theorem disable_not_mem_svTrace (E : Env) (r x : Rail) (uV : Nat) :
    Event.regulator_disable x ∉ svTrace E r uV := by
  intro h
  rcases mem_svTrace E r uV _ h with h | h <;> simp at h

/-- A power-on run that reaches the final disable of `i2c_pwr`: it returns 0 and
that disable is its last call. -/
theorem power_on_final_disable (E : Env) (spanel : ppa957db2d_panel) (held : Bool)
    (h : Event.regulator_disable .i2c_pwr ∈ onTrace E spanel held) :
    onRet E held = 0
      ∧ (onTrace E spanel held).getLast? = some (Event.regulator_disable .i2c_pwr) := by
  by_cases hv : E.enable .vddi = 0
  · by_cases hi : E.enable .i2c_pwr = 0
    · by_cases ha : E.enable .avdd = 0
      · by_cases he : E.enable .avee = 0
        · cases held
          · refine ⟨by simp [onRet, biasRet, hv, hi, ha, he], ?_⟩
            simp only [onTrace, biasTrace, hv, hi, ha, he, if_true, if_false,
              Bool.false_eq_true, List.cons_append, List.nil_append]
            exact getLast?_cons_of_some (getLast?_cons_of_some (getLast?_cons_of_some
              (getLast?_cons_of_some (getLast?_cons_of_some (getLast?_cons_of_some
                (getLast?_append_of_some _ (getLast?_append_of_some _ rfl)))))))
          · exfalso
            simp [onTrace, biasTrace, hv, ha, he, disable_not_mem_svTrace] at h
        · exfalso
          cases held <;>
            simp [onTrace, biasTrace, hv, hi, ha, he, disable_not_mem_svTrace] at h
      · exfalso
        cases held <;> simp [onTrace, biasTrace, hv, hi, ha] at h
    · exfalso
      by_cases ha : E.enable .avdd = 0 <;> by_cases he : E.enable .avee = 0 <;>
        cases held <;>
        simp [onTrace, biasTrace, hv, hi, ha, he, disable_not_mem_svTrace] at h
  · exfalso
    simp [onTrace, hv] at h

/-- C7 (amended): when a `regulator_enable` that `ppa957db2d_set_power` (with
`on` true) calls fails, be it on vddi, i2c_pwr, avdd or avee, the function
returns the error of that call, that call is the last call of the run, and the
run contains no `regulator_disable` at all; and when the run reaches the final
`regulator_disable(i2c_pwr)`, that call is the last call of the run and the
function returns 0 whatever the disable returns, an error included. -/
theorem C7_power_on_enable_failure_aborts (E : Env) (spanel : ppa957db2d_panel) (w : World) :
    (∀ rail,
        Event.regulator_enable rail ∈ newEvents w (ppa957db2d_set_power E spanel true w).2 →
        E.enable rail ≠ 0 →
        (ppa957db2d_set_power E spanel true w).1 = E.enable rail
          ∧ (newEvents w (ppa957db2d_set_power E spanel true w).2).getLast?
              = some (Event.regulator_enable rail)
          ∧ (∀ e, e ∈ newEvents w (ppa957db2d_set_power E spanel true w).2 →
              e.isDisable = false))
      ∧ (Event.regulator_disable .i2c_pwr
            ∈ newEvents w (ppa957db2d_set_power E spanel true w).2 →
          (ppa957db2d_set_power E spanel true w).1 = 0
            ∧ (newEvents w (ppa957db2d_set_power E spanel true w).2).getLast?
                = some (Event.regulator_disable .i2c_pwr)) := by
  refine ⟨fun rail hcall hfail => power_on_enable_fail E spanel w rail hcall hfail, ?_⟩
  intro h
  rw [newEvents_set_power_on] at h ⊢
  have hd := power_on_final_disable E spanel _ h
  rw [set_power_on_eq]
  exact hd

theorem C7_power_on_enable_failure_aborts_witness :
    (Event.regulator_enable .avdd
        ∈ newEvents sampleWorld
            (ppa957db2d_set_power sampleEnvAvddFail samplePpa true sampleWorld).2
      ∧ sampleEnvAvddFail.enable .avdd ≠ 0
      ∧ (ppa957db2d_set_power sampleEnvAvddFail samplePpa true sampleWorld).1
          = sampleEnvAvddFail.enable .avdd
      ∧ (newEvents sampleWorld
            (ppa957db2d_set_power sampleEnvAvddFail samplePpa true sampleWorld).2).getLast?
          = some (Event.regulator_enable .avdd)
      ∧ (∀ e, e ∈ newEvents sampleWorld
            (ppa957db2d_set_power sampleEnvAvddFail samplePpa true sampleWorld).2 →
          e.isDisable = false))
    ∧ (Event.regulator_disable .i2c_pwr
        ∈ newEvents sampleWorld
            (ppa957db2d_set_power sampleEnvDisableFail samplePpa true sampleWorld).2
      ∧ sampleEnvDisableFail.disable .i2c_pwr ≠ 0
      ∧ (ppa957db2d_set_power sampleEnvDisableFail samplePpa true sampleWorld).1 = 0
      ∧ (newEvents sampleWorld
            (ppa957db2d_set_power sampleEnvDisableFail samplePpa true sampleWorld).2).getLast?
          = some (Event.regulator_disable .i2c_pwr)) :=
  ⟨⟨by decide, by decide,
      (C7_power_on_enable_failure_aborts sampleEnvAvddFail samplePpa sampleWorld).1 .avdd
        (by decide) (by decide)⟩,
    ⟨by decide, by decide,
      (C7_power_on_enable_failure_aborts sampleEnvDisableFail samplePpa sampleWorld).2
        (by decide)⟩⟩

theorem filter_svTrace (E : Env) (r : Rail) (uV : Nat) :
    (svTrace E r uV).filter Event.isRailSwitch = [] := by
  unfold svTrace
  split_ifs <;> simp [Event.isRailSwitch]

/-- The enable and disable calls of a power-on run, in order: they depend on
the return values of the enables only. -/
theorem filter_onTrace (E : Env) (spanel : ppa957db2d_panel) (held : Bool) :
    (onTrace E spanel held).filter Event.isRailSwitch
      = Event.regulator_enable .vddi ::
          (if E.enable .vddi = 0 then
            (if held then [] else
              Event.regulator_enable .i2c_pwr :: [])
            ++ (if held = true ∨ E.enable .i2c_pwr = 0 then
                  Event.regulator_enable .avdd ::
                    (if E.enable .avdd = 0 then
                      Event.regulator_enable .avee ::
                        (if E.enable .avee = 0 then
                          (if held then [] else [Event.regulator_disable .i2c_pwr])
                        else [])
                    else [])
                else [])
          else []) := by
  by_cases hv : E.enable .vddi = 0 <;> by_cases hi : E.enable .i2c_pwr = 0 <;>
    by_cases ha : E.enable .avdd = 0 <;> by_cases he : E.enable .avee = 0 <;>
    cases held <;>
    simp [onTrace, biasTrace, filter_svTrace, Event.isRailSwitch, hv, hi, ha, he]

/-- C8: two runs of `ppa957db2d_set_power` with `on` true from the same world
whose environments agree on the return values of `regulator_enable` and
`regulator_disable` (so differ at most in those of `regulator_set_voltage`)
return the same value, make the same enable and disable calls in the same
order and leave the regulators in the same state; and when every enable
succeeds the run returns 0 and enables avdd and avee, whatever the voltage
sets return. -/
theorem C8_voltage_set_failures_not_fatal (E1 E2 : Env) (spanel : ppa957db2d_panel) (w : World)
    (hen : ∀ r, E1.enable r = E2.enable r) (hdis : ∀ r, E1.disable r = E2.disable r) :
    (ppa957db2d_set_power E1 spanel true w).1 = (ppa957db2d_set_power E2 spanel true w).1
      ∧ (newEvents w (ppa957db2d_set_power E1 spanel true w).2).filter Event.isRailSwitch
          = (newEvents w (ppa957db2d_set_power E2 spanel true w).2).filter Event.isRailSwitch
      ∧ (ppa957db2d_set_power E1 spanel true w).2.regs
          = (ppa957db2d_set_power E2 spanel true w).2.regs
      ∧ ((∀ r, E1.enable r = 0) →
          (ppa957db2d_set_power E1 spanel true w).1 = 0
            ∧ Event.regulator_enable .avdd
                ∈ newEvents w (ppa957db2d_set_power E1 spanel true w).2
            ∧ Event.regulator_enable .avee
                ∈ newEvents w (ppa957db2d_set_power E1 spanel true w).2) := by
  refine ⟨?_, ?_, ?_, ?_⟩
  · simp only [set_power_on_eq, onRet, biasRet, hen]
  · simp only [newEvents_set_power_on, filter_onTrace, hen]
  · simp only [set_power_on_eq, onRegs, biasRegs, hen, hdis]
  · intro hall
    rw [newEvents_set_power_on]
    refine ⟨by simp [set_power_on_eq, onRet, biasRet, hall], ?_, ?_⟩ <;>
      cases w.regs.i2c_pwr.enabled <;> simp [onTrace, biasTrace, hall]

theorem C8_voltage_set_failures_not_fatal_witness :
    (∀ r, sampleEnvSvFail.enable r = sampleEnvOk.enable r)
      ∧ (∀ r, sampleEnvSvFail.disable r = sampleEnvOk.disable r)
      ∧ (ppa957db2d_set_power sampleEnvSvFail samplePpa true sampleWorld).1
          = (ppa957db2d_set_power sampleEnvOk samplePpa true sampleWorld).1
      ∧ (newEvents sampleWorld
            (ppa957db2d_set_power sampleEnvSvFail samplePpa true sampleWorld).2).filter
            Event.isRailSwitch
          = (newEvents sampleWorld
            (ppa957db2d_set_power sampleEnvOk samplePpa true sampleWorld).2).filter
            Event.isRailSwitch :=
  have h := C8_voltage_set_failures_not_fatal sampleEnvSvFail sampleEnvOk samplePpa sampleWorld
    (fun _ => rfl) (fun _ => rfl)
  ⟨fun _ => rfl, fun _ => rfl, h.1, h.2.1⟩


/-- C10: `ppa957db2d_set_power` with `on` false first drives the reset GPIO to
0, then disables avee, avdd and vddi in this order with the settle delays
between them, stops at the first disable that fails and returns its error
(each disable is called at most once), returns 0 when the three succeed, and
makes no call on `i2c_pwr`, whose state it leaves unchanged. -/
theorem C10_power_off (E : Env) (spanel : ppa957db2d_panel) (w : World) :
    newEvents w (ppa957db2d_set_power E spanel false w).2
        = Event.gpiod_set_value 0 :: Event.regulator_disable .avee ::
            (if E.disable .avee = 0 then
              Event.usleep_range 1000 1100 :: Event.regulator_disable .avdd ::
                (if E.disable .avdd = 0 then
                  [Event.usleep_range 6000 7000, Event.regulator_disable .vddi]
                else [])
            else [])
      ∧ (ppa957db2d_set_power E spanel false w).1
          = (if E.disable .avee ≠ 0 then E.disable .avee
             else if E.disable .avdd ≠ 0 then E.disable .avdd
             else E.disable .vddi)
      ∧ ((E.disable .avee = 0 ∧ E.disable .avdd = 0 ∧ E.disable .vddi = 0) →
          (ppa957db2d_set_power E spanel false w).1 = 0)
      ∧ (ppa957db2d_set_power E spanel false w).2.reset_gpio = 0
      ∧ (∀ e, e ∈ newEvents w (ppa957db2d_set_power E spanel false w).2 →
          Event.onRail .i2c_pwr e = false)
      ∧ (ppa957db2d_set_power E spanel false w).2.regs.i2c_pwr = w.regs.i2c_pwr := by
  by_cases he : E.disable .avee = 0 <;> by_cases ha : E.disable .avdd = 0 <;>
    by_cases hv : E.disable .vddi = 0 <;>
    simp [ppa957db2d_set_power, regulator_disable, gpiod_set_value, usleep_range, World.emit,
      newEvents, Regulators.get, Regulators.set, Event.onRail, he, ha, hv]

/-- C11: on both models `set_dimming_on(on)` stores `on` in `dimming_on` and
makes exactly one call, a write to `MIPI_DCS_WRITE_CONTROL_DISPLAY` whose byte is
`0x20 | 0x04 | (0x08 if on else 0)`; so `set_dimming_on(true)` followed by
`set_dimming_on(false)` makes two writes with bytes 0x2C and 0x24, which differ
in the bit 0x08 only. -/
theorem C11_set_dimming_on (ctx : exynos_panel) (w : World) (on_ : Bool) :
    (ts110f5mlg0_set_dimming_on ctx on_ w).1 = { ctx with dimming_on := on_ }
      ∧ newEvents w (ts110f5mlg0_set_dimming_on ctx on_ w).2
          = [Event.dcs_write [MIPI_DCS_WRITE_CONTROL_DISPLAY,
              0x20 ||| 0x04 ||| (if on_ then 0x08 else 0)]]
      ∧ (ppa957db2d_set_dimming_on ctx on_ w).1 = { ctx with dimming_on := on_ }
      ∧ newEvents w (ppa957db2d_set_dimming_on ctx on_ w).2
          = [Event.dcs_write [MIPI_DCS_WRITE_CONTROL_DISPLAY,
              0x20 ||| 0x04 ||| (if on_ then 0x08 else 0)]]
      ∧ newEvents w (ts110f5mlg0_set_dimming_on (ts110f5mlg0_set_dimming_on ctx true w).1 false
            (ts110f5mlg0_set_dimming_on ctx true w).2).2
          = [Event.dcs_write [MIPI_DCS_WRITE_CONTROL_DISPLAY, 0x2C],
             Event.dcs_write [MIPI_DCS_WRITE_CONTROL_DISPLAY, 0x24]]
      ∧ newEvents w (ppa957db2d_set_dimming_on (ppa957db2d_set_dimming_on ctx true w).1 false
            (ppa957db2d_set_dimming_on ctx true w).2).2
          = [Event.dcs_write [MIPI_DCS_WRITE_CONTROL_DISPLAY, 0x2C],
             Event.dcs_write [MIPI_DCS_WRITE_CONTROL_DISPLAY, 0x24]]
      ∧ (0x2C : Nat) ^^^ 0x24 = 0x08 := by
  cases on_ <;>
    simp [ts110f5mlg0_set_dimming_on, ts110f5mlg0_update_wrctrld, ppa957db2d_set_dimming_on,
      ppa957db2d_update_wrctrld, EXYNOS_DCS_WRITE_SEQ, World.emit, newEvents,
      TS110F5MLG0_WRCTRLD_BCTRL_BIT, TS110F5MLG0_WRCTRLD_BL_BIT, TS110F5MLG0_WRCTRLD_DD_BIT,
      PPA957DB2D_WRCTRLD_BCTRL_BIT, PPA957DB2D_WRCTRLD_BL_BIT, PPA957DB2D_WRCTRLD_DD_BIT]


/-- C12: for every mode value `set_cabc_mode` makes exactly one call, a write
to register 0x55 with one payload byte: 0x01 for UI and 0x02 for Still on both
models, 0x03 for Movie on the BOE model and 0x83 (0x03 with the bit 0x80) on the
CSOT model, and 0x00 for Off and for every other mode value. -/
theorem C12_set_cabc_mode (C : CabcEnum) (w : World) (hC : C.distinct) :
    (newEvents w (ts110f5mlg0_set_cabc_mode C C.CABC_UI_MODE w)
        = [Event.dcs_write [0x55, 0x01]]
      ∧ newEvents w (ts110f5mlg0_set_cabc_mode C C.CABC_STILL_MODE w)
        = [Event.dcs_write [0x55, 0x02]]
      ∧ newEvents w (ts110f5mlg0_set_cabc_mode C C.CABC_MOVIE_MODE w)
        = [Event.dcs_write [0x55, 0x03]]
      ∧ newEvents w (ts110f5mlg0_set_cabc_mode C C.CABC_OFF w)
        = [Event.dcs_write [0x55, 0x00]]
      ∧ (∀ m, m ≠ C.CABC_UI_MODE → m ≠ C.CABC_STILL_MODE → m ≠ C.CABC_MOVIE_MODE →
          newEvents w (ts110f5mlg0_set_cabc_mode C m w) = [Event.dcs_write [0x55, 0x00]])
      ∧ (∀ m, ∃ b, newEvents w (ts110f5mlg0_set_cabc_mode C m w)
          = [Event.dcs_write [0x55, b]]))
    ∧ (newEvents w (panel_csot_ppa957db2d.ts110f5mlg0_set_cabc_mode C C.CABC_UI_MODE w)
        = [Event.dcs_write [0x55, 0x01]]
      ∧ newEvents w (panel_csot_ppa957db2d.ts110f5mlg0_set_cabc_mode C C.CABC_STILL_MODE w)
        = [Event.dcs_write [0x55, 0x02]]
      ∧ newEvents w (panel_csot_ppa957db2d.ts110f5mlg0_set_cabc_mode C C.CABC_MOVIE_MODE w)
        = [Event.dcs_write [0x55, 0x83]]
      ∧ newEvents w (panel_csot_ppa957db2d.ts110f5mlg0_set_cabc_mode C C.CABC_OFF w)
        = [Event.dcs_write [0x55, 0x00]]
      ∧ (∀ m, m ≠ C.CABC_UI_MODE → m ≠ C.CABC_STILL_MODE → m ≠ C.CABC_MOVIE_MODE →
          newEvents w (panel_csot_ppa957db2d.ts110f5mlg0_set_cabc_mode C m w)
            = [Event.dcs_write [0x55, 0x00]])
      ∧ (∀ m, ∃ b, newEvents w (panel_csot_ppa957db2d.ts110f5mlg0_set_cabc_mode C m w)
          = [Event.dcs_write [0x55, b]]))
    ∧ (0x83 : Nat) = 0x03 ||| 0x80 := by
  obtain ⟨h1, h2, h3, h4, h5, h6⟩ := hC
  have e1 : ∀ m b, newEvents w (EXYNOS_DCS_WRITE_SEQ [m, b] w) = [Event.dcs_write [m, b]] := by
    intro m b
    simp [EXYNOS_DCS_WRITE_SEQ, World.emit, newEvents]
  refine ⟨⟨?_, ?_, ?_, ?_, ?_, ?_⟩, ⟨?_, ?_, ?_, ?_, ?_, ?_⟩, by decide⟩
  all_goals
    simp only [ts110f5mlg0_set_cabc_mode, panel_csot_ppa957db2d.ts110f5mlg0_set_cabc_mode, e1]
  · simp
  · simp [Ne.symm h4]
  · simp [Ne.symm h5, Ne.symm h6]
  · simp [h1, h2, h3]
  · intro m a b c; simp [a, b, c]
  · intro m; exact ⟨_, rfl⟩
  · simp
  · simp [Ne.symm h4]
  · simp [Ne.symm h5, Ne.symm h6]
  · simp [h1, h2, h3]
  · intro m a b c; simp [a, b, c]
  · intro m; exact ⟨_, rfl⟩

theorem C12_set_cabc_mode_witness :
    sampleCabc.distinct
      ∧ newEvents sampleWorld (ts110f5mlg0_set_cabc_mode sampleCabc sampleCabc.CABC_MOVIE_MODE
          sampleWorld) = [Event.dcs_write [0x55, 0x03]]
      ∧ newEvents sampleWorld (panel_csot_ppa957db2d.ts110f5mlg0_set_cabc_mode sampleCabc
          sampleCabc.CABC_MOVIE_MODE sampleWorld) = [Event.dcs_write [0x55, 0x83]] :=
  have hd : sampleCabc.distinct := by
    simp [CabcEnum.distinct, sampleCabc]
  have h := C12_set_cabc_mode sampleCabc sampleWorld hd
  ⟨hd, h.1.2.2.1, h.2.1.2.2.1⟩

/-- C13, as stated, fails: on a panel that is not enabled each of the four
control functions makes one register write. -/
theorem C13_counterexample :
    (samplePanel 256).enabled = false
      ∧ newEvents sampleWorld (ts110f5mlg0_set_dimming_on (samplePanel 256) true sampleWorld).2
          = [Event.dcs_write [0x53, 0x2C]]
      ∧ newEvents sampleWorld (ppa957db2d_set_dimming_on (samplePanel 256) true sampleWorld).2
          = [Event.dcs_write [0x53, 0x2C]]
      ∧ newEvents sampleWorld (ts110f5mlg0_set_cabc_mode sampleCabc 1 sampleWorld)
          = [Event.dcs_write [0x55, 0x01]]
      ∧ newEvents sampleWorld
          (panel_csot_ppa957db2d.ts110f5mlg0_set_cabc_mode sampleCabc 1 sampleWorld)
          = [Event.dcs_write [0x55, 0x01]] := by
  decide

/-- C13 (amended): whatever the lifecycle state of the panel (`enabled`,
`panel_state`), `set_dimming_on` and `set_cabc_mode` of either model make
exactly one call, a register write; they have no result with which to reject
the call, and `set_dimming_on` stores the flag. -/
theorem C13_control_not_guarded (C : CabcEnum) (ctx : exynos_panel) (w : World)
    (dimming_on : Bool) (cabc_mode : Nat) :
    (∃ b, newEvents w (ts110f5mlg0_set_dimming_on ctx dimming_on w).2
        = [Event.dcs_write [MIPI_DCS_WRITE_CONTROL_DISPLAY, b]])
      ∧ (∃ b, newEvents w (ppa957db2d_set_dimming_on ctx dimming_on w).2
        = [Event.dcs_write [MIPI_DCS_WRITE_CONTROL_DISPLAY, b]])
      ∧ (∃ b, newEvents w (ts110f5mlg0_set_cabc_mode C cabc_mode w)
        = [Event.dcs_write [0x55, b]])
      ∧ (∃ b, newEvents w (panel_csot_ppa957db2d.ts110f5mlg0_set_cabc_mode C cabc_mode w)
        = [Event.dcs_write [0x55, b]])
      ∧ (ts110f5mlg0_set_dimming_on ctx dimming_on w).1 = { ctx with dimming_on := dimming_on }
      ∧ (ppa957db2d_set_dimming_on ctx dimming_on w).1
          = { ctx with dimming_on := dimming_on } := by
  have e1 : ∀ m b, newEvents w (EXYNOS_DCS_WRITE_SEQ [m, b] w) = [Event.dcs_write [m, b]] := by
    intro m b
    simp [EXYNOS_DCS_WRITE_SEQ, World.emit, newEvents]
  refine ⟨⟨_, e1 _ _⟩, ⟨_, e1 _ _⟩, ⟨_, e1 _ _⟩, ⟨_, e1 _ _⟩, rfl, rfl⟩


theorem ppa_reset_eq (H : DrvHeader) (ctx : exynos_panel) (w : World) :
    ppa957db2d_reset H ctx w = ts110f5mlg0_reset H ctx w := rfl

theorem ppa_prepare_eq (H : DrvHeader) (P : SetPower) (ctx : exynos_panel) (w : World) :
    ppa957db2d_prepare H P ctx w = ts110f5mlg0_prepare H P ctx w := rfl

/-- The result of the reset function: the panel as it was, and the world with
the reset calls added and the reset line at 1. -/
theorem reset_eq (H : DrvHeader) (ctx : exynos_panel) (w : World) :
    ts110f5mlg0_reset H ctx w
      = (ctx, { w with
          log := w.log
            ++ ((if ctx.panel_state = H.PANEL_STATE_BLANK then
                  [Event.gpiod_set_value 0, Event.usleep_range 1000 1100]
                else []) ++ resetPulse)
          reset_gpio := 1 }) := by
  by_cases hb : ctx.panel_state = H.PANEL_STATE_BLANK <;>
    simp [ts110f5mlg0_reset, gpiod_set_value, usleep_range, World.emit, resetPulse, hb]

/-- C14, as stated, fails: when the power function fails with -22, `prepare` of
either model returns 0 and goes on to drive the reset line. -/
theorem C14_counterexample :
    (sampleSetPowerFail (samplePanel 256) true sampleWorld).1 = -22
      ∧ (ppa957db2d_prepare sampleHeader sampleSetPowerFail (samplePanel 256) sampleWorld).1 = 0
      ∧ Event.gpiod_set_value 1
          ∈ (ppa957db2d_prepare sampleHeader sampleSetPowerFail (samplePanel 256)
              sampleWorld).2.2.log
      ∧ (ts110f5mlg0_prepare sampleHeader sampleSetPowerFail (samplePanel 256) sampleWorld).1 = 0
      ∧ Event.gpiod_set_value 1
          ∈ (ts110f5mlg0_prepare sampleHeader sampleSetPowerFail (samplePanel 256)
              sampleWorld).2.2.log := by
  decide

/-- C14 (amended): `prepare` of either model does not look at the value
`exynos_panel_set_power` returns: whatever that value is, 0 or an error,
`prepare` returns 0, and after the calls of the power function it makes the
delay call `usleep_range(18500, 18600)` and the calls of the reset function;
the panel fields are those the power function left. -/
theorem C14_prepare_ignores_power_failure (H : DrvHeader) (P : SetPower) (ctx : exynos_panel)
    (w : World) :
    ((ts110f5mlg0_prepare H P ctx w).1 = 0
      ∧ (ts110f5mlg0_prepare H P ctx w).2.1 = (P ctx true w).2.1
      ∧ newEvents (P ctx true w).2.2 (ts110f5mlg0_prepare H P ctx w).2.2
          = Event.usleep_range 18500 18600 ::
              ((if (P ctx true w).2.1.panel_state = H.PANEL_STATE_BLANK then
                  [Event.gpiod_set_value 0, Event.usleep_range 1000 1100]
                else []) ++ resetPulse))
    ∧ ((ppa957db2d_prepare H P ctx w).1 = 0
      ∧ (ppa957db2d_prepare H P ctx w).2.1 = (P ctx true w).2.1
      ∧ newEvents (P ctx true w).2.2 (ppa957db2d_prepare H P ctx w).2.2
          = Event.usleep_range 18500 18600 ::
              ((if (P ctx true w).2.1.panel_state = H.PANEL_STATE_BLANK then
                  [Event.gpiod_set_value 0, Event.usleep_range 1000 1100]
                else []) ++ resetPulse)) := by
  have h : (ts110f5mlg0_prepare H P ctx w).1 = 0
      ∧ (ts110f5mlg0_prepare H P ctx w).2.1 = (P ctx true w).2.1
      ∧ newEvents (P ctx true w).2.2 (ts110f5mlg0_prepare H P ctx w).2.2
          = Event.usleep_range 18500 18600 ::
              ((if (P ctx true w).2.1.panel_state = H.PANEL_STATE_BLANK then
                  [Event.gpiod_set_value 0, Event.usleep_range 1000 1100]
                else []) ++ resetPulse) := by
    simp only [ts110f5mlg0_prepare, reset_eq]
    simp [usleep_range, World.emit, newEvents]
  rw [ppa_prepare_eq]
  exact ⟨h, h⟩

/-- C15: for both models and every panel, `reset` makes exactly the calls
(reset line to 1, sleep 1000..1100), (to 0, sleep 1000..1100), (to 1, sleep
10000..10100), preceded by (to 0, sleep 1000..1100) exactly when `panel_state`
is `PANEL_STATE_BLANK`; the upper bound of every sleep is within 10% of its
lower bound; the panel fields, the regulators and the DSI side are untouched,
and the reset line is at 1 on return. -/
theorem C15_reset_trace (H : DrvHeader) (ctx : exynos_panel) (w : World) :
    (newEvents w (ts110f5mlg0_reset H ctx w).2
        = (if ctx.panel_state = H.PANEL_STATE_BLANK then
            [Event.gpiod_set_value 0, Event.usleep_range 1000 1100]
          else [])
          ++ [Event.gpiod_set_value 1, Event.usleep_range 1000 1100,
              Event.gpiod_set_value 0, Event.usleep_range 1000 1100,
              Event.gpiod_set_value 1, Event.usleep_range 10000 10100]
      ∧ (ts110f5mlg0_reset H ctx w).1 = ctx
      ∧ (ts110f5mlg0_reset H ctx w).2.reset_gpio = 1
      ∧ (ts110f5mlg0_reset H ctx w).2.regs = w.regs
      ∧ (ts110f5mlg0_reset H ctx w).2.reads = w.reads)
    ∧ (newEvents w (ppa957db2d_reset H ctx w).2
        = (if ctx.panel_state = H.PANEL_STATE_BLANK then
            [Event.gpiod_set_value 0, Event.usleep_range 1000 1100]
          else [])
          ++ [Event.gpiod_set_value 1, Event.usleep_range 1000 1100,
              Event.gpiod_set_value 0, Event.usleep_range 1000 1100,
              Event.gpiod_set_value 1, Event.usleep_range 10000 10100]
      ∧ (ppa957db2d_reset H ctx w).1 = ctx
      ∧ (ppa957db2d_reset H ctx w).2.reset_gpio = 1
      ∧ (ppa957db2d_reset H ctx w).2.regs = w.regs
      ∧ (ppa957db2d_reset H ctx w).2.reads = w.reads)
    ∧ (∀ a b, Event.usleep_range a b ∈ newEvents w (ts110f5mlg0_reset H ctx w).2 →
        a ≤ b ∧ 10 * b ≤ 11 * a) := by
  have hnew : newEvents w (ts110f5mlg0_reset H ctx w).2
      = (if ctx.panel_state = H.PANEL_STATE_BLANK then
          [Event.gpiod_set_value 0, Event.usleep_range 1000 1100]
        else [])
        ++ [Event.gpiod_set_value 1, Event.usleep_range 1000 1100,
            Event.gpiod_set_value 0, Event.usleep_range 1000 1100,
            Event.gpiod_set_value 1, Event.usleep_range 10000 10100] := by
    rw [reset_eq]
    exact newEvents_append _ _ _ _ _
  have h : newEvents w (ts110f5mlg0_reset H ctx w).2
        = (if ctx.panel_state = H.PANEL_STATE_BLANK then
            [Event.gpiod_set_value 0, Event.usleep_range 1000 1100]
          else [])
          ++ [Event.gpiod_set_value 1, Event.usleep_range 1000 1100,
              Event.gpiod_set_value 0, Event.usleep_range 1000 1100,
              Event.gpiod_set_value 1, Event.usleep_range 10000 10100]
      ∧ (ts110f5mlg0_reset H ctx w).1 = ctx
      ∧ (ts110f5mlg0_reset H ctx w).2.reset_gpio = 1
      ∧ (ts110f5mlg0_reset H ctx w).2.regs = w.regs
      ∧ (ts110f5mlg0_reset H ctx w).2.reads = w.reads := by
    refine ⟨hnew, ?_, ?_, ?_, ?_⟩ <;> rw [reset_eq]
  refine ⟨h, by rw [ppa_reset_eq]; exact h, ?_⟩
  intro a b hmem
  rw [hnew] at hmem
  by_cases hb : ctx.panel_state = H.PANEL_STATE_BLANK <;>
    simp [hb] at hmem <;> omega


/-- A failing enable of the power-on sequence decides the return value. -/
theorem on_enable_fail (E : Env) (spanel : ppa957db2d_panel) (held : Bool) (rail : Rail)
    (hcall : Event.regulator_enable rail ∈ onTrace E spanel held)
    (hfail : E.enable rail ≠ 0) : onRet E held = E.enable rail := by
  by_cases hv : E.enable .vddi = 0
  · cases held
    · by_cases hi : E.enable .i2c_pwr = 0
      · have hb : Event.regulator_enable rail ∈ biasTrace E spanel false := by
          cases rail <;> simp_all [onTrace]
        simp [onRet, hv, hi, (bias_enable_fail E spanel false rail hb hfail).1]
      · cases rail <;> simp_all [onTrace, onRet]
    · have hb : Event.regulator_enable rail ∈ biasTrace E spanel true := by
        cases rail <;> simp_all [onTrace]
      simp [onRet, hv, (bias_enable_fail E spanel true rail hb hfail).1]
  · cases rail <;> simp_all [onTrace, onRet]

/-- A power-on run that returns an error made an enable call that failed. -/
theorem on_ret_ne_zero (E : Env) (spanel : ppa957db2d_panel) (held : Bool)
    (h : onRet E held ≠ 0) :
    ∃ rail, Event.regulator_enable rail ∈ onTrace E spanel held ∧ E.enable rail ≠ 0 := by
  by_cases hv : E.enable .vddi = 0
  · by_cases hi : held = true ∨ E.enable .i2c_pwr = 0
    · by_cases ha : E.enable .avdd = 0
      · by_cases he : E.enable .avee = 0
        · exfalso
          apply h
          cases held <;> simp_all [onRet, biasRet]
        · refine ⟨.avee, ?_, he⟩
          cases held <;> simp_all [onTrace, biasTrace]
      · refine ⟨.avdd, ?_, ha⟩
        cases held <;> simp_all [onTrace, biasTrace]
    · refine ⟨.i2c_pwr, ?_, fun h0 => hi (Or.inr h0)⟩
      cases held <;> simp_all [onTrace]
  · exact ⟨.vddi, by simp [onTrace], hv⟩

/-- C16: `ppa957db2d_set_power` with `on` true returns a value other than 0
exactly when one of the `regulator_enable` calls it makes fails, and then it
returns the error of that call, which is the first failing one in the order
vddi, i2c_pwr (called only when found off), avdd, avee; in every other run it
returns 0, whatever `regulator_set_voltage` and the final
`regulator_disable(i2c_pwr)` return. -/
theorem C16_power_on_return_value (E : Env) (spanel : ppa957db2d_panel) (w : World) :
    ((ppa957db2d_set_power E spanel true w).1 ≠ 0 ↔
        ∃ rail, Event.regulator_enable rail
            ∈ newEvents w (ppa957db2d_set_power E spanel true w).2
          ∧ E.enable rail ≠ 0)
      ∧ (∀ rail, Event.regulator_enable rail
            ∈ newEvents w (ppa957db2d_set_power E spanel true w).2 →
          E.enable rail ≠ 0 → (ppa957db2d_set_power E spanel true w).1 = E.enable rail)
      ∧ ((∀ rail, Event.regulator_enable rail
            ∈ newEvents w (ppa957db2d_set_power E spanel true w).2 → E.enable rail = 0) →
          (ppa957db2d_set_power E spanel true w).1 = 0)
      ∧ (ppa957db2d_set_power E spanel true w).1
          = (if E.enable .vddi ≠ 0 then E.enable .vddi
             else if (regulator_is_enabled .i2c_pwr w).1 = 0 ∧ E.enable .i2c_pwr ≠ 0 then
               E.enable .i2c_pwr
             else if E.enable .avdd ≠ 0 then E.enable .avdd
             else if E.enable .avee ≠ 0 then E.enable .avee
             else 0) := by
  rw [newEvents_set_power_on]
  have hret : (ppa957db2d_set_power E spanel true w).1 = onRet E w.regs.i2c_pwr.enabled := by
    rw [set_power_on_eq]
  rw [hret]
  refine ⟨⟨on_ret_ne_zero E spanel _, ?_⟩, ?_, ?_, ?_⟩
  · rintro ⟨rail, hcall, hfail⟩
    rw [on_enable_fail E spanel _ rail hcall hfail]
    exact hfail
  · intro rail hcall hfail
    exact on_enable_fail E spanel _ rail hcall hfail
  · intro hall
    by_contra hne
    obtain ⟨rail, hcall, hfail⟩ := on_ret_ne_zero E spanel _ hne
    exact hfail (hall rail hcall)
  · cases hh : w.regs.i2c_pwr.enabled <;>
      by_cases hv : E.enable .vddi = 0 <;> by_cases hi : E.enable .i2c_pwr = 0 <;>
      by_cases ha : E.enable .avdd = 0 <;> by_cases he : E.enable .avee = 0 <;>
      simp [onRet, biasRet, regulator_is_enabled, Regulators.get, hh, hv, hi, ha, he]

end PanelDrv
